import Mathlib

/-!
Verification of the Roof-Area-Estimator core against its specification.

The development shallowly embeds the Python modules
`app/services/google_solar.py`, `app/services/eagleview.py` and the
order-handling endpoints of `app/main.py`:

* pure helpers (`degrees_to_pitch_string`, `find_predominant_pitch`,
  `normalize_solar_data`, `normalize_eagleview_data`, ...) become Lean
  functions over `ℚ`/`ℝ`/`String`;
* the database is explicit state (`List RoofOrder`,
  `List DailyOrderCount`) threaded through the operations;
* network calls are parameters carrying the provider's response
  (`Except`-valued outcomes), and the usage log is an event trace;
* Python `datetime` values are modelled as seconds (`Nat`);
* Python `float` arithmetic is idealised as exact rational arithmetic,
  `round` as round-half-to-even (`pyRound`, `pyRoundQ` below);
* `hashlib.sha256(...).hexdigest()` is modelled as the identity on the
  normalized address (an injective key, which is all the code relies on).
-/

/-! ### String helpers (modelling Python `str` operations) -/

/-- Model of Python `str.lower` on the character list (ASCII, as used by
the fixed strings of this code base). -/
def lowerChars (l : List Char) : List Char := l.map Char.toLower

/-- Model of Python `str.lower` on `String`. -/
def lowerStr (s : String) : String := ⟨lowerChars s.data⟩

/-- Model of Python `str.upper` on `String`. -/
def upperStr (s : String) : String := ⟨s.data.map Char.toUpper⟩

/-- Boolean list-prefix test (structural, kernel-evaluable). -/
def startsWithChars : List Char → List Char → Bool
  | [], _ => true
  | _ :: _, [] => false
  | a :: as, b :: bs => a == b && startsWithChars as bs

/-- Model of Python `s.startswith(p)`. -/
def strStartsWith (s p : String) : Bool := startsWithChars p.data s.data

/-- Contiguous-substring test on character lists (structural recursion on
the haystack). -/
def containsSub (hay needle : List Char) : Bool :=
  match hay with
  | [] => startsWithChars needle []
  | _ :: t => startsWithChars needle hay || containsSub t needle

/-- Model of Python `needle in hay` for strings. -/
def strContains (hay needle : String) : Bool := containsSub hay.data needle.data

/-- Model of Python `str.strip()` on a character list: drop whitespace
from both ends. -/
def trimChars (l : List Char) : List Char :=
  ((l.dropWhile Char.isWhitespace).reverse.dropWhile Char.isWhitespace).reverse

/-- Decimal rendering of a natural number, digit by digit (fuel-based
structural recursion mirroring `Nat.toDigits`, so that the kernel can
evaluate it and we can reason about its characters). -/
def natCharsAux : Nat → Nat → List Char → List Char
  | 0, _, acc => acc
  | fuel + 1, n, acc =>
    let d : Char := Char.ofNat (48 + n % 10)
    if n < 10 then d :: acc else natCharsAux fuel (n / 10) (d :: acc)

/-- Decimal digits of `n`. -/
def natChars (n : Nat) : List Char := natCharsAux (n + 1) n []

/-- Decimal rendering of a natural number as a `String` (model of Python
f-string interpolation of an `int`). -/
def natStr (n : Nat) : String := ⟨natChars n⟩

/-! ### Python `round` (round-half-to-even) -/

/-- Python `round(x)` on exact rationals: round half to even. -/
def pyRoundQ (x : ℚ) : ℤ :=
  if x - ⌊x⌋ < 1 / 2 then ⌊x⌋
  else if 1 / 2 < x - ⌊x⌋ then ⌊x⌋ + 1
  else if ⌊x⌋ % 2 = 0 then ⌊x⌋ else ⌊x⌋ + 1

/-- Python `round(x)` on reals (used where the source feeds `math.tan`
output to `round`): round half to even. -/
noncomputable def pyRound (x : ℝ) : ℤ :=
  if x - ⌊x⌋ < 1 / 2 then ⌊x⌋
  else if 1 / 2 < x - ⌊x⌋ then ⌊x⌋ + 1
  else if ⌊x⌋ % 2 = 0 then ⌊x⌋ else ⌊x⌋ + 1

/-- Python `round(x, d)` on exact rationals (round half to even at the
`d`-th decimal). -/
def roundTo (x : ℚ) (d : Nat) : ℚ := (pyRoundQ (x * 10 ^ d) : ℚ) / 10 ^ d

/-! ### Enums and canonical schema (`app/models.py`) -/

/-- `MeasurementStatus` from `app/models.py`. -/
inductive MeasurementStatus where
  | ESTIMATE
  | PENDING
  | VERIFIED
  | MANUAL_REVIEW
  | FAILED
deriving DecidableEq, Repr

/-- `DataSource` from `app/models.py`. -/
inductive DataSource where
  | GOOGLE_SOLAR
  | EAGLEVIEW
deriving DecidableEq, Repr

/-- `RoofSegmentDetail` from `app/models.py`. -/
structure RoofSegmentDetail where
  area_sqft : ℚ
  pitch : String
  azimuth_degrees : ℚ
  azimuth_direction : String

/-- `RoofMeasurementResponse` from `app/models.py` (the canonical
measurement). Optional pydantic fields carry their `None` defaults. -/
structure RoofMeasurementResponse where
  status : MeasurementStatus
  total_area_sqft : ℚ
  predominant_pitch : String
  source : DataSource
  confidence_score : Option ℚ := none
  address : String
  order_id : Option String := none
  message : Option String := none
  is_cached : Bool := false
  max_sunshine_hours_per_year : Option ℚ := none
  carbon_offset_factor : Option ℚ := none
  imagery_quality : Option String := none
  imagery_date : Option String := none
  roof_facet_count : Option Nat := none
  roof_segments : Option (List RoofSegmentDetail) := none
  max_panels : Option Nat := none
  panel_capacity_watts : Option ℤ := none
  ridge_length_ft : Option ℚ := none
  valley_length_ft : Option ℚ := none
  eave_length_ft : Option ℚ := none
  squares_needed : Option ℚ := none

/-! ### Raw Google Solar payload (the JSON shape read by
`normalize_solar_data`; `.get` defaults are folded into the field types:
a plain field models `get(key, 0)`, an `Option` field a key that may be
absent). -/

/-- One entry of `solarPotential.roofSegmentStats`. -/
structure SolarSegment where
  pitchDegrees : ℝ
  azimuthDegrees : ℚ := 0
  areaMeters2 : ℚ

/-- The `imageryDate` sub-object. -/
structure ImageryDate where
  year : Option Nat := none
  month : Option Nat := none
  day : Option Nat := none

/-- The slice of a `buildingInsights` response that
`normalize_solar_data` reads. -/
structure SolarPayload where
  wholeRoofAreaMeters2 : ℚ := 0
  maxArrayAreaMeters2 : ℚ := 0
  roofSegmentStats : List SolarSegment := []
  imageryQuality : Option String := none
  imageryDate : Option ImageryDate := none
  maxSunshineHoursPerYear : Option ℚ := none
  carbonOffsetFactorKgPerMwh : Option ℚ := none
  maxArrayPanelsCount : Option Nat := none
  panelCapacityWatts : Option ℚ := none

/-! ### `app/services/google_solar.py`: pitch helpers -/

/-- `math.radians(degrees)`. -/
noncomputable def radians (degrees : ℝ) : ℝ := degrees * Real.pi / 180

/-- The rounded-and-capped rise computed inside `degrees_to_pitch_string`
(the `rise_rounded` local after both caps are applied). -/
noncomputable def pitchRise (degrees : ℝ) : ℤ :=
  let rise := Real.tan (radians degrees) * 12
  let rise_rounded := pyRound rise
  let rise_rounded := if rise_rounded > 24 then 24 else rise_rounded
  let rise_rounded := if rise_rounded < 0 then 0 else rise_rounded
  rise_rounded

/-- `degrees_to_pitch_string` from `app/services/google_solar.py`. -/
noncomputable def degrees_to_pitch_string (degrees : ℝ) : String :=
  if degrees ≤ 0 then "Flat"
  else toString (pitchRise degrees) ++ "/12"

/-! ### `find_predominant_pitch`: the Python dict accumulation
(`pitch_areas`) is modelled as an insertion-ordered association list. -/

/-- One `pitch_areas[pitch_str] += area` / insertion step. -/
def addArea (m : List (String × ℚ)) (k : String) (a : ℚ) : List (String × ℚ) :=
  if m.any (fun p => p.1 == k) then
    m.map (fun p => if p.1 == k then (p.1, p.2 + a) else p)
  else m ++ [(k, a)]

/-- The `pitch_areas` dict built by the loop of `find_predominant_pitch`,
in insertion order. -/
noncomputable def buildAreas (segs : List SolarSegment) : List (String × ℚ) :=
  segs.foldl
    (fun m segment => addArea m (degrees_to_pitch_string segment.pitchDegrees) segment.areaMeters2) []

/-- `max(iter, key=f)` over the tail: keeps the first maximal entry, as
Python `max` does. -/
def maxKeyGo (k : String) (v : ℚ) : List (String × ℚ) → String
  | [] => k
  | (k2, v2) :: t => if v < v2 then maxKeyGo k2 v2 t else maxKeyGo k v t

/-- `max(pitch_areas, key=pitch_areas.get)`: first key attaining the
maximal value, in insertion order. -/
def maxKey : List (String × ℚ) → String
  | [] => "Unknown"
  | (k, v) :: t => maxKeyGo k v t

/-- `find_predominant_pitch` from `app/services/google_solar.py`. -/
noncomputable def find_predominant_pitch (roof_segments : List SolarSegment) : String :=
  if roof_segments.isEmpty then "Unknown"
  else
    let pitch_areas := buildAreas roof_segments
    if pitch_areas.isEmpty then "Unknown"
    else maxKey pitch_areas

/-- `azimuth_to_direction` from `app/services/google_solar.py`. -/
def azimuth_to_direction (azimuth : ℚ) : String :=
  let directions := ["N", "NE", "E", "SE", "S", "SW", "W", "NW", "N"]
  let index := (pyRoundQ (azimuth / 45)) % 8
  directions.getD index.toNat "N"

/-! ### `normalize_solar_data` -/

/-- Replace every non-overlapping occurrence of `pat` by `rep`, left to
right (model of Python `str.replace`). -/
def replaceChars (pat rep : List Char) (l : List Char) : List Char :=
  match l with
  | [] => []
  | c :: cs =>
    if pat.isEmpty then c :: cs
    else if startsWithChars pat (c :: cs) then
      rep ++ replaceChars pat rep (cs.drop (pat.length - 1))
    else c :: replaceChars pat rep cs
termination_by l.length
decreasing_by
  all_goals simp only [List.length_cons, List.length_drop]
  all_goals omega

/-- Model of Python `str.replace`. -/
def replaceStr (s pat rep : String) : String := ⟨replaceChars pat.data rep.data s.data⟩

/-- Model of Python `str.title`: alphabetic characters are upper-cased at
word starts and lower-cased elsewhere. -/
def titleAux : Bool → List Char → List Char
  | _, [] => []
  | prevAlpha, c :: cs =>
    (if c.isAlpha then (if prevAlpha then c.toLower else c.toUpper) else c) :: titleAux c.isAlpha cs

/-- Model of Python `str.title` on `String`. -/
def titleStr (s : String) : String := ⟨titleAux false s.data⟩

/-- Python truthiness of a JSON number that may be absent (`None` and `0`
are falsy). -/
def truthyQ : Option ℚ → Bool
  | some v => v != 0
  | none => false

/-- Python truthiness of a JSON integer that may be absent. -/
def truthyNat : Option Nat → Bool
  | some v => v != 0
  | none => false

/-- Zero-padded two-digit rendering, model of Python `f"{n:02d}"`. -/
def pad2 (n : Nat) : String := if n < 10 then "0" ++ natStr n else natStr n

/-- Python `int(x)` on a rational: truncation toward zero. -/
def intTrunc (q : ℚ) : ℤ := q.num / (q.den : ℤ)

/-- The `imagery_date_str` computation of `normalize_solar_data`. -/
def imageryDateStr : Option ImageryDate → Option String
  | none => none
  | some d =>
    if truthyNat d.year && truthyNat d.month then
      let s := natStr (d.year.getD 0) ++ "-" ++ pad2 (d.month.getD 0)
      if truthyNat d.day then some (s ++ "-" ++ pad2 (d.day.getD 0)) else some s
    else none

/-- `normalize_solar_data` from `app/services/google_solar.py`. -/
noncomputable def normalize_solar_data (raw_data : SolarPayload) (address : String) :
    RoofMeasurementResponse :=
  let area_meters :=
    if raw_data.wholeRoofAreaMeters2 == 0 then raw_data.maxArrayAreaMeters2
    else raw_data.wholeRoofAreaMeters2
  let area_sqft := area_meters * (10.764 : ℚ)
  let roof_segments_raw := raw_data.roofSegmentStats
  let predominant_pitch := find_predominant_pitch roof_segments_raw
  let imagery_quality_raw := raw_data.imageryQuality.getD "IMAGERY_QUALITY_UNSPECIFIED"
  let cleaned :=
    titleStr (replaceStr (replaceStr imagery_quality_raw "IMAGERY_QUALITY_" "") "_" " ")
  let imagery_quality := if cleaned == "Unspecified" then "Unknown" else cleaned
  let imagery_date_str := imageryDateStr raw_data.imageryDate
  let max_sunshine_hours := raw_data.maxSunshineHoursPerYear
  let carbon_offset := raw_data.carbonOffsetFactorKgPerMwh
  let roof_facet_count := roof_segments_raw.length
  let roof_segments := roof_segments_raw.map (fun segment =>
    { area_sqft := roundTo (segment.areaMeters2 * (10.764 : ℚ)) 2
      pitch := degrees_to_pitch_string segment.pitchDegrees
      azimuth_degrees := roundTo segment.azimuthDegrees 1
      azimuth_direction := azimuth_to_direction segment.azimuthDegrees : RoofSegmentDetail })
  let roof_segments :=
    roof_segments.mergeSort (fun x y => decide (y.area_sqft ≤ x.area_sqft))
  let max_panels := raw_data.maxArrayPanelsCount
  let panel_capacity := raw_data.panelCapacityWatts.map intTrunc
  let confidence : ℚ :=
    if imagery_quality == "High" then 0.85 else if imagery_quality == "Medium" then 0.7 else 0.5
  let squares_needed := if 0 < area_sqft then some (roundTo (area_sqft / 100) 1) else none
  { status := .ESTIMATE
    total_area_sqft := roundTo area_sqft 2
    predominant_pitch := predominant_pitch
    source := .GOOGLE_SOLAR
    confidence_score := some confidence
    address := address
    order_id := none
    message := none
    max_sunshine_hours_per_year :=
      if truthyQ max_sunshine_hours then some (roundTo (max_sunshine_hours.getD 0) 1) else none
    carbon_offset_factor :=
      if truthyQ carbon_offset then some (roundTo (carbon_offset.getD 0) 2) else none
    imagery_quality := if imagery_quality == "Unknown" then none else some imagery_quality
    imagery_date := imagery_date_str
    roof_facet_count := if 0 < roof_facet_count then some roof_facet_count else none
    roof_segments := if roof_segments.isEmpty then none else some roof_segments
    max_panels := max_panels
    panel_capacity_watts := panel_capacity
    squares_needed := squares_needed }

/-! ### Raw EagleView report payload (the JSON shape read by
`normalize_eagleview_data`). -/

/-- A pitch field of an EagleView report: either a pre-formatted string
or a raw angle in degrees. -/
inductive EVPitch where
  | str (s : String)
  | num (degrees : ℝ)

/-- The `details` sub-object of `roofMeasurements`. -/
structure EVDetails where
  ridges : Option ℚ := none
  valleys : Option ℚ := none
  eaves : Option ℚ := none

/-- One entry of the `facets` list. -/
structure EVFacet where
  area : Option ℚ := none
  pitch : Option ℚ := none
  azimuth : Option ℚ := none
  compass : Option String := none

/-- The `roofMeasurements` (or legacy `roof`) object of an EagleView
report. Keys the mock report carries but the normalizer never reads
(`ridges`, `valleys` at top level) are kept for fidelity. -/
structure EVRoof where
  totalArea : Option ℚ := none
  totalRoofArea : Option ℚ := none
  area : Option ℚ := none
  predominantPitch : Option EVPitch := none
  pitch : Option EVPitch := none
  details : Option EVDetails := none
  ridgeLength : Option ℚ := none
  valleyLength : Option ℚ := none
  eaveLength : Option ℚ := none
  ridges : Option ℚ := none
  valleys : Option ℚ := none
  facets : List EVFacet := []

/-- An EagleView report, as read by `normalize_eagleview_data`. -/
structure EVReport where
  roofMeasurements : Option EVRoof := none
  roof : Option EVRoof := none

/-! ### Persistent entities (`app/models.py`) -/

/-- Contents of the `raw_google_response` column: either the raw Solar
payload stored by `get_tier1_estimate` (`json.dumps(raw_data)`) or the
Tier-1 response dump stored by `create_tier2_order`
(`tier1_data.model_dump_json()`). Serialisation round-trips are modelled
as the identity. -/
inductive RawGoogle where
  | solar (payload : SolarPayload)
  | tier1Dump (response : RoofMeasurementResponse)

/-- `json.loads` of a `raw_google_response` column followed by the
dynamic field reads of `normalize_solar_data`: a stored Solar payload
parses back to itself; a Tier-1 response dump has no `solarPotential`
key, so every read falls back to its default. -/
def payloadOfRaw : RawGoogle → SolarPayload
  | .solar payload => payload
  | .tier1Dump _ => {}

/-- The `roof_orders` row (`RoofOrder` in `app/models.py`). The raw
JSON columns hold the parsed values (serialisation is the identity in
this model). -/
structure RoofOrder where
  id : Nat := 0
  address : String
  normalized_address_hash : Option String := none
  latitude : Option ℚ := none
  longitude : Option ℚ := none
  status : MeasurementStatus := .ESTIMATE
  source : DataSource := .GOOGLE_SOLAR
  eagleview_order_id : Option String := none
  report_type : String := "PREMIUM"
  last_checked_at : Option Nat := none
  total_area_sqft : ℚ := 0
  predominant_pitch : String := "Unknown"
  confidence_score : Option ℚ := none
  message : Option String := none
  created_at : Nat
  updated_at : Nat
  raw_google_response : Option RawGoogle := none
  raw_eagleview_json : Option EVReport := none

/-- The `daily_order_counts` row (`DailyOrderCount` in
`app/models.py`). -/
structure DailyOrderCount where
  date : String
  eagleview_orders : Nat := 0
  total_cost_usd : ℚ := 0

/-! ### `get_tier1_estimate` (`app/services/google_solar.py`) -/

/-- A failure of the free-tier providers: the two exception classes the
code can see from `geocode_address` / `get_building_insights`
(`ValueError` for not-found / access-denied / bad status,
`httpx.HTTPError` for network errors). -/
inductive GFail where
  | valueError (msg : String)
  | httpError (msg : String)
deriving DecidableEq, Repr

/-- A usage-log entry of the free tier (the `log_api_call` rows written
by `geocode_address` and `get_building_insights`). -/
inductive GEvent where
  | geocodeCall (success : Bool)
  | insightsCall (success : Bool)
deriving DecidableEq, Repr

/-- `address.lower().strip()` — the normalized address. -/
def normalizeAddressKey (address : String) : String := ⟨trimChars (lowerChars address.data)⟩

/-- `hashlib.sha256(norm_address.encode()).hexdigest()`, modelled as the
normalized address itself (SHA-256 is treated as an injective encoding;
the code only ever compares hashes for equality). -/
def addrHash (address : String) : String := normalizeAddressKey address

/-- The cache query of `get_tier1_estimate`:
`select(RoofOrder).where(RoofOrder.normalized_address_hash == addr_hash)`. -/
def cacheLookup (store : List RoofOrder) (h : String) : Option RoofOrder :=
  store.find? (fun o => o.normalized_address_hash == some h)

/-- The raw payload available for a request address in the store, if
any (cache hit with a stored `raw_google_response`). -/
def cachedPayload (store : List RoofOrder) (address : String) : Option RawGoogle :=
  (cacheLookup store (addrHash address)).bind (fun o => o.raw_google_response)

/-- The `MANUAL_REVIEW` response built by the two `except` branches of
`get_tier1_estimate`. -/
def manualReviewResponse (address : String) (e : GFail) : RoofMeasurementResponse :=
  { status := .MANUAL_REVIEW
    total_area_sqft := 0
    predominant_pitch := "Unknown"
    source := .GOOGLE_SOLAR
    confidence_score := some 0
    address := address
    order_id := none
    message := some (match e with
      | .valueError msg => "Estimate unavailable: " ++ msg
      | .httpError msg => "Service temporarily unavailable: " ++ msg) }

/-- Result of one `get_tier1_estimate` call: the response, the
`roof_orders` store after the call, and the usage-log trace. -/
structure Tier1Outcome where
  response : RoofMeasurementResponse
  store : List RoofOrder
  trace : List GEvent

/-- The fresh-fetch path of `get_tier1_estimate` (cache miss, or cache
entry without a stored payload): geocode, fetch building insights,
normalize, write through to the cache. `geo` and `ins` carry the
provider outcomes for this call. -/
noncomputable def tier1Fresh (address : String) (store : List RoofOrder)
    (cached : Option RoofOrder) (addr_hash : String)
    (geo : Except GFail (ℚ × ℚ)) (ins : Except GFail SolarPayload) (now : Nat) : Tier1Outcome :=
  match geo with
  | .error e =>
    { response := manualReviewResponse address e, store := store,
      trace := [.geocodeCall false] }
  | .ok (lat, lng) =>
    match ins with
    | .error e =>
      { response := manualReviewResponse address e, store := store,
        trace := [.geocodeCall true, .insightsCall false] }
    | .ok raw_data =>
      let response := normalize_solar_data raw_data address
      let store' :=
        match cached with
        | some cached_order =>
          store.map (fun r =>
            if r.id == cached_order.id then
              { r with raw_google_response := some (.solar raw_data)
                       total_area_sqft := response.total_area_sqft
                       updated_at := now }
            else r)
        | none =>
          store ++ [{ address := address
                      normalized_address_hash := some addr_hash
                      latitude := some lat
                      longitude := some lng
                      status := .ESTIMATE
                      source := .GOOGLE_SOLAR
                      total_area_sqft := response.total_area_sqft
                      predominant_pitch := response.predominant_pitch
                      confidence_score := response.confidence_score
                      raw_google_response := some (.solar raw_data)
                      created_at := now
                      updated_at := now }]
      { response := response, store := store',
        trace := [.geocodeCall true, .insightsCall true] }

/-- `get_tier1_estimate` from `app/services/google_solar.py`. A cache
hit with a stored payload re-normalizes it in place; otherwise the
providers are called (their outcomes are the `geo` / `ins`
parameters). -/
noncomputable def get_tier1_estimate (address : String) (store : List RoofOrder)
    (geo : Except GFail (ℚ × ℚ)) (ins : Except GFail SolarPayload) (now : Nat) : Tier1Outcome :=
  let addr_hash := addrHash address
  match cacheLookup store addr_hash with
  | some cached_order =>
    match cached_order.raw_google_response with
    | some stored =>
      { response :=
          { normalize_solar_data (payloadOfRaw stored) cached_order.address with is_cached := true }
        store := store
        trace := [] }
    | none => tier1Fresh address store (some cached_order) addr_hash geo ins now
  | none => tier1Fresh address store none addr_hash geo ins now

/-! ### `app/services/eagleview.py`: safety gate and daily counter -/

/-- The settings the EagleView module reads (`app/config.py` defaults:
live mode off, mock mode on, daily limit 5). -/
structure EVSettings where
  eagleview_live_mode : Bool := false
  eagleview_mock_mode : Bool := true
  eagleview_daily_order_limit : Nat := 5

/-- `COST_EAGLEVIEW_ORDER` from `app/services/eagleview.py`. -/
def COST_EAGLEVIEW_ORDER : ℚ := 30

/-- `select(DailyOrderCount).where(DailyOrderCount.date == today)`. -/
def lookupDailyCount (counts : List DailyOrderCount) (today : String) : Option DailyOrderCount :=
  counts.find? (fun c => c.date == today)

/-- Today's order count as read by `check_safety_controls`
(`daily_count.eagleview_orders if daily_count else 0`). -/
def currentCount (counts : List DailyOrderCount) (today : String) : Nat :=
  ((lookupDailyCount counts today).map (fun c => c.eagleview_orders)).getD 0

/-- The disabled-mode reason string of `check_safety_controls`. -/
def disabledReason : String :=
  "EagleView is disabled (EAGLEVIEW_LIVE_MODE=false). Set EAGLEVIEW_LIVE_MODE=true in .env to enable real orders. WARNING: Each order costs ~$30!"

/-- The quota reason string of `check_safety_controls`. The
`f"...{current_count * COST_EAGLEVIEW_ORDER:.2f}..."` money rendering is
modelled as the whole-dollar amount followed by `.00` (exact for the
integer multiples of 30 that occur). -/
def quotaReasonChars (current_count limit : Nat) : List Char :=
  "Daily order limit reached (".data ++ natChars current_count ++ "/".data ++
    natChars limit ++ "). Total cost today: $".data ++ natChars (current_count * 30) ++
    ".00. Limit resets at midnight UTC.".data

/-- The quota reason as a `String`. -/
def quotaReason (current_count limit : Nat) : String := ⟨quotaReasonChars current_count limit⟩

/-- `check_safety_controls` from `app/services/eagleview.py`. -/
def check_safety_controls (s : EVSettings) (today : String) (counts : List DailyOrderCount) :
    Bool × String :=
  if !s.eagleview_live_mode then (false, disabledReason)
  else
    let current_count := currentCount counts today
    if s.eagleview_daily_order_limit ≤ current_count then
      (false, quotaReason current_count s.eagleview_daily_order_limit)
    else (true, "")

/-- `increment_daily_count` from `app/services/eagleview.py`. -/
def increment_daily_count (today : String) (counts : List DailyOrderCount) :
    List DailyOrderCount :=
  match lookupDailyCount counts today with
  | some _ =>
    counts.map (fun c =>
      if c.date == today then
        { c with eagleview_orders := c.eagleview_orders + 1
                 total_cost_usd := c.total_cost_usd + COST_EAGLEVIEW_ORDER }
      else c)
  | none =>
    counts ++ [{ date := today, eagleview_orders := 1, total_cost_usd := COST_EAGLEVIEW_ORDER }]

/-- The exception classes raised by the order-placement path
(`EagleViewDisabledError`, `DailyLimitExceededError`, `ValueError`,
`httpx.HTTPError`). -/
inductive EVError where
  | disabled (reason : String)
  | dailyLimitExceeded (reason : String)
  | valueError (msg : String)
  | httpError (msg : String)
deriving DecidableEq, Repr

/-- The `if "disabled" in reason.lower(): raise EagleViewDisabledError
else: raise DailyLimitExceededError` mapping used by both `place_order`
and `create_tier2_order`. -/
def classifySafetyFailure (reason : String) : EVError :=
  if strContains (lowerStr reason) "disabled" then .disabled reason
  else .dailyLimitExceeded reason

/-- A usage-log entry of the EagleView module (`log_api_call` row), or
the `increment_daily_count` side effect, in execution order. -/
inductive EVEvent where
  | apiLog (endpoint : String) (method : String) (cost : ℚ) (success : Bool)
  | incrementDaily
deriving DecidableEq, Repr

/-- Outcome of the `get_bearer_token` call in live mode: a still-valid
cached token, or a fresh token fetch that succeeds or fails (non-200 and
network failures both raise after logging). -/
inductive AuthOutcome where
  | cachedToken (token : String)
  | fetched (result : Except String String)

/-- `get_bearer_token` from `app/services/eagleview.py` (mock mode short
circuits; the auth call is logged at zero cost). -/
def get_bearer_token (s : EVSettings) (auth : AuthOutcome) :
    Except EVError String × List EVEvent :=
  if s.eagleview_mock_mode then (.ok "MOCK_BEARER_TOKEN", [])
  else
    match auth with
    | .cachedToken token => (.ok token, [])
    | .fetched (.ok token) => (.ok token, [.apiLog "oauth/token" "POST" 0 true])
    | .fetched (.error e) => (.error (.httpError e), [.apiLog "oauth/token" "POST" 0 false])

/-- Outcome of the order-placement HTTP POST: a network failure, or a
response with a status code and an optional order id
(`data.get("orderId") or data.get("id")`). -/
inductive PlaceOutcome where
  | httpError (msg : String)
  | resp (status : Nat) (orderId : Option String)

/-- `place_order` from `app/services/eagleview.py`. Returns the result,
the daily-counter table after the call, and the usage-log/side-effect
trace. The mock-mode branch runs after the safety evaluation but before
the safety raise, exactly as in the source. -/
def place_order (s : EVSettings) (today : String) (counts : List DailyOrderCount)
    (now : Nat) (auth : AuthOutcome) (outcome : PlaceOutcome)
    (address : String) (lat lng : ℚ) (report_type : String) :
    Except EVError String × List DailyOrderCount × List EVEvent :=
  let safety := check_safety_controls s today counts
  if s.eagleview_mock_mode then
    (.ok ("MOCK-ORD-" ++ natStr now), counts, [.apiLog "orders" "POST (MOCK)" 0 true])
  else if !safety.1 then
    (.error (classifySafetyFailure safety.2), counts, [])
  else
    match get_bearer_token s auth with
    | (.error e, tr) => (.error e, counts, tr)
    | (.ok _token, tr) =>
      match outcome with
      | .httpError msg =>
        (.error (.httpError msg), counts, tr ++ [.apiLog "orders" "POST" 0 false])
      | .resp status orderId =>
        let ok := status == 200 || status == 201 || status == 202
        let tr := tr ++ [.apiLog "orders" "POST" COST_EAGLEVIEW_ORDER ok]
        if !ok then (.error (.valueError "EagleView order failed"), counts, tr)
        else
          match orderId with
          | none => (.error (.valueError "EagleView response missing order ID"), counts, tr)
          | some order_id =>
            (.ok order_id, increment_daily_count today counts, tr ++ [.incrementDaily])

/-! ### Status polling, report fetch, normalization -/

/-- Outcome of the status-poll HTTP GET: a network failure, or a
response with a status code and the report's `status` field. -/
inductive PollOutcome where
  | httpError (msg : String)
  | resp (status : Nat) (statusField : String)

/-- `check_order_status` from `app/services/eagleview.py`: mock orders
are always completed; any non-200 or network failure degrades to
`"PENDING"`; only explicit failure statuses map to `"FAILED"`. -/
def check_order_status (order_id : String) (pr : PollOutcome) : String :=
  if strStartsWith order_id "MOCK-" then "COMPLETED"
  else
    match pr with
    | .httpError _ => "PENDING"
    | .resp status statusField =>
      if status ≠ 200 then "PENDING"
      else
        let st := upperStr statusField
        if st == "COMPLETE" || st == "COMPLETED" || st == "DELIVERED" then "COMPLETED"
        else if st == "FAILED" || st == "ERROR" || st == "CANCELLED" then "FAILED"
        else "PENDING"

/-- The hard-coded mock report returned by `get_report` for
`MOCK-`-prefixed orders. -/
def mockReport : EVReport :=
  { roofMeasurements := some
      { totalArea := some 2500
        predominantPitch := some (.str "6/12")
        ridges := some 150
        valleys := some 50 } }

/-- `get_report` from `app/services/eagleview.py`: mock orders return
the fixed mock report; otherwise a non-200 raises
`ValueError("Report not available: ...")`. -/
def get_report (order_id : String) (rep : Except String EVReport) : Except EVError EVReport :=
  if strStartsWith order_id "MOCK-" then .ok mockReport
  else
    match rep with
    | .ok report => .ok report
    | .error e => .error (.valueError ("Report not available: " ++ e))

/-- Python truthiness of an EagleView pitch value (`""` and `0` are
falsy). The numeric case compares reals, hence the classical `if`. -/
noncomputable def truthyEVPitch : EVPitch → Bool
  | .str s => s != ""
  | .num degrees => if degrees = 0 then false else true

/-- The `x or y or z` fallback chain over optional JSON numbers with a
final plain default, as used for `total_area` and the linear measures. -/
def orChainQ (x y : Option ℚ) (z : ℚ) : ℚ :=
  if truthyQ x then x.getD 0 else if truthyQ y then y.getD 0 else z

/-- Python numeric-to-string interpolation for facet pitches
(`f"{f.get('pitch', 0)}/12"`); the exact float formatting is abstracted
to the rational's canonical rendering (no claim depends on it). -/
def ratRender (q : ℚ) : String := toString q

/-- `normalize_eagleview_data` from `app/services/eagleview.py`. -/
noncomputable def normalize_eagleview_data (report : EVReport) (address : String)
    (order_id : String) : RoofMeasurementResponse :=
  let roof_data :=
    match report.roofMeasurements with
    | some r => r
    | none => report.roof.getD {}
  let total_area := orChainQ roof_data.totalArea roof_data.totalRoofArea (roof_data.area.getD 0)
  let pitch : EVPitch :=
    match roof_data.predominantPitch with
    | some p => if truthyEVPitch p then p else roof_data.pitch.getD (.str "Unknown")
    | none => roof_data.pitch.getD (.str "Unknown")
  let pitch_str :=
    match pitch with
    | .num degrees => toString (pyRound (Real.tan (radians degrees) * 12)) ++ "/12"
    | .str s => s
  let details := roof_data.details.getD {}
  let ridge_len := orChainQ details.ridges roof_data.ridgeLength 0
  let valley_len := orChainQ details.valleys roof_data.valleyLength 0
  let eave_len := orChainQ details.eaves roof_data.eaveLength 0
  let squares := if total_area != 0 then total_area / 100 else 0
  let segments := roof_data.facets.map (fun f =>
    { area_sqft := f.area.getD 0
      pitch := ratRender (f.pitch.getD 0) ++ "/12"
      azimuth_degrees := f.azimuth.getD 0
      azimuth_direction := f.compass.getD "N" : RoofSegmentDetail })
  { status := .VERIFIED
    total_area_sqft := total_area
    predominant_pitch := pitch_str
    source := .EAGLEVIEW
    confidence_score := some 0.98
    address := address
    order_id := some order_id
    message := some "Professional measurement from EagleView"
    ridge_length_ft := some ridge_len
    valley_length_ft := some valley_len
    eave_length_ft := some eave_len
    squares_needed := some (roundTo squares 1)
    roof_segments := if segments.isEmpty then none else some segments
    roof_facet_count := if segments.isEmpty then none else some segments.length }

/-! ### Reconciler (`run_global_polling_loop`) and manual force-check -/

/-- The per-order body of the polling loop in
`run_global_polling_loop`: timeout check first, then (only if not timed
out) the provider poll. The second component records whether
`check_order_status` was invoked for this order in this cycle. Per-order
exceptions (a failing report fetch) are caught and leave the order in
its pre-branch state, with `last_checked_at` already advanced. -/
noncomputable def reconcile_order (now : Nat) (pr : PollOutcome)
    (rep : Except String EVReport) (order : RoofOrder) : RoofOrder × Bool :=
  if 72 * 3600 < now - order.created_at then
    ({ order with status := .FAILED
                  message := some "Order timed out after 72h"
                  updated_at := now }, false)
  else
    let oid := order.eagleview_order_id.getD ""
    let status := check_order_status oid pr
    let order := { order with last_checked_at := some now }
    if status == "COMPLETED" then
      match get_report oid rep with
      | .ok report =>
        let normalized := normalize_eagleview_data report order.address oid
        ({ order with status := .VERIFIED
                      source := .EAGLEVIEW
                      total_area_sqft := normalized.total_area_sqft
                      predominant_pitch := normalized.predominant_pitch
                      confidence_score := normalized.confidence_score
                      raw_eagleview_json := some report
                      updated_at := now }, true)
      | .error _ => (order, true)
    else if status == "FAILED" then
      ({ order with status := .FAILED
                    message := some "EagleView reported failure"
                    updated_at := now }, true)
    else (order, true)

/-- One order of one reconciler cycle: the loop only iterates orders
selected by `status == PENDING`; every other order is untouched. -/
noncomputable def cycleStep (now : Nat) (prOf : RoofOrder → PollOutcome)
    (repOf : RoofOrder → Except String EVReport) (o : RoofOrder) : RoofOrder :=
  if o.status = .PENDING then (reconcile_order now (prOf o) (repOf o) o).1 else o

/-- One full cycle of `run_global_polling_loop` over the order store
(`prOf` / `repOf` carry each order's provider outcomes for this
cycle). -/
noncomputable def run_global_polling_cycle (now : Nat) (prOf : RoofOrder → PollOutcome)
    (repOf : RoofOrder → Except String EVReport) (orders : List RoofOrder) : List RoofOrder :=
  orders.map (cycleStep now prOf repOf)

/-- `check_order_now` from `app/main.py` (the manual force-check), on
the order found by `eagleview_order_id`. A failing report fetch raises
out of the endpoint, so the session is rolled back and the stored order
is unchanged. -/
noncomputable def check_order_now (now : Nat) (pr : PollOutcome)
    (rep : Except String EVReport) (order : RoofOrder) : RoofOrder :=
  let oid := order.eagleview_order_id.getD ""
  let status := check_order_status oid pr
  let order' := { order with last_checked_at := some now }
  if status == "COMPLETED" && decide (order.status ≠ .VERIFIED) then
    match get_report oid rep with
    | .ok report =>
      let normalized := normalize_eagleview_data report order.address oid
      { order' with status := .VERIFIED
                    source := .EAGLEVIEW
                    total_area_sqft := normalized.total_area_sqft
                    predominant_pitch := normalized.predominant_pitch
                    confidence_score := normalized.confidence_score
                    raw_eagleview_json := some report
                    updated_at := now }
    | .error _ => order
  else if status == "FAILED" then
    { order' with status := .FAILED
                  message := some "EagleView reported failure"
                  updated_at := now }
  else order'

/-- `create_tier2_order` from `app/services/eagleview.py`: safety check
first (note: before the mock-mode bypass that lives inside
`place_order`), then placement, then the `PENDING` database record. -/
def create_tier2_order (s : EVSettings) (today : String) (counts : List DailyOrderCount)
    (now : Nat) (auth : AuthOutcome) (outcome : PlaceOutcome)
    (address : String) (lat lng : ℚ) (tier1_data : Option RoofMeasurementResponse)
    (report_type : String) :
    Except EVError RoofOrder × List DailyOrderCount × List EVEvent :=
  let safety := check_safety_controls s today counts
  if !safety.1 then (.error (classifySafetyFailure safety.2), counts, [])
  else
    match place_order s today counts now auth outcome address lat lng report_type with
    | (.error e, counts', tr) => (.error e, counts', tr)
    | (.ok eagleview_order_id, counts', tr) =>
      (.ok { address := address
             latitude := some lat
             longitude := some lng
             status := .PENDING
             source := .GOOGLE_SOLAR
             eagleview_order_id := some eagleview_order_id
             report_type := report_type
             total_area_sqft := (tier1_data.map (fun t => t.total_area_sqft)).getD 0
             predominant_pitch := (tier1_data.map (fun t => t.predominant_pitch)).getD "Unknown"
             confidence_score := tier1_data.bind (fun t => t.confidence_score)
             raw_google_response := tier1_data.map (fun t => .tier1Dump t)
             created_at := now
             updated_at := now }, counts', tr)

/-! ## Claims -/

/-! ### C1 — terminal states under the reconciler and the force-check -/

/-- A mock order that has already failed (as after a 72h timeout): the
configuration of the C1 counterexample. -/
def c1FailedOrder : RoofOrder :=
  { address := "X", status := .FAILED, eagleview_order_id := some "MOCK-ORD-7",
    message := some "Order timed out after 72h", created_at := 0, updated_at := 0 }

/-- C1 counterexample: the manual force-check does not preserve terminal
states. A `FAILED` order whose provider reports completion (here a mock
order, whose poll always reports completion) is moved to `VERIFIED` by
`check_order_now`, contradicting the claim that no operation changes a
terminal status. -/
theorem C1_counterexample :
    c1FailedOrder.status = .FAILED ∧
    (check_order_now 10 (.resp 200 "") (.ok {}) c1FailedOrder).status = .VERIFIED := by
  decide

/-- C1 (amended): a reconciler cycle never touches an order whose status
is not `PENDING`; the force-check leaves the status unchanged whenever
the provider still reports pending, and never re-applies the `VERIFIED`
transition to an already-`VERIFIED` order; but the force-check moves any
non-`VERIFIED` order (including terminal `FAILED` / `MANUAL_REVIEW`) to
`VERIFIED` when the provider reports completion, and any order
(including `VERIFIED`) to `FAILED` when the provider reports failure. -/
theorem C1_amended :
    (∀ (now : Nat) (prOf : RoofOrder → PollOutcome)
        (repOf : RoofOrder → Except String EVReport) (o : RoofOrder),
      o.status ≠ .PENDING → cycleStep now prOf repOf o = o) ∧
    (∀ (now : Nat) (pr : PollOutcome) (rep : Except String EVReport) (o : RoofOrder),
      check_order_status (o.eagleview_order_id.getD "") pr = "PENDING" →
      (check_order_now now pr rep o).status = o.status) ∧
    (∀ (now : Nat) (pr : PollOutcome) (rep : Except String EVReport) (o : RoofOrder),
      o.status = .VERIFIED →
      check_order_status (o.eagleview_order_id.getD "") pr = "COMPLETED" →
      (check_order_now now pr rep o).status = .VERIFIED) ∧
    (∀ (now : Nat) (pr : PollOutcome) (rep : Except String EVReport) (o : RoofOrder)
        (report : EVReport),
      o.status ≠ .VERIFIED →
      check_order_status (o.eagleview_order_id.getD "") pr = "COMPLETED" →
      get_report (o.eagleview_order_id.getD "") rep = .ok report →
      (check_order_now now pr rep o).status = .VERIFIED) ∧
    (∀ (now : Nat) (pr : PollOutcome) (rep : Except String EVReport) (o : RoofOrder),
      check_order_status (o.eagleview_order_id.getD "") pr = "FAILED" →
      (check_order_now now pr rep o).status = .FAILED) := by
  refine ⟨?_, ?_, ?_, ?_, ?_⟩
  · intro now prOf repOf o h
    simp [cycleStep, h]
  · intro now pr rep o h
    simp [check_order_now, h]
  · intro now pr rep o hv h
    simp [check_order_now, h, hv]
  · intro now pr rep o report hv h hrep
    simp [check_order_now, h, hv, hrep]
  · intro now pr rep o h
    simp [check_order_now, h]

/-- Witness for `C1_amended` at concrete orders and provider outcomes. -/
theorem C1_amended_witness :
    (cycleStep 5 (fun _ => .httpError "e") (fun _ => .error "e")
      { address := "X", status := .VERIFIED, created_at := 0, updated_at := 0 } =
      { address := "X", status := .VERIFIED, created_at := 0, updated_at := 0 }) ∧
    ((check_order_now 5 (.httpError "e") (.error "e")
      { address := "X", status := .FAILED, eagleview_order_id := some "EV-1",
        created_at := 0, updated_at := 0 }).status = .FAILED) ∧
    ((check_order_now 5 (.resp 200 "COMPLETED") (.ok {})
      { address := "X", status := .VERIFIED, eagleview_order_id := some "EV-1",
        created_at := 0, updated_at := 0 }).status = .VERIFIED) ∧
    ((check_order_now 5 (.resp 200 "COMPLETED") (.ok {})
      { address := "X", status := .FAILED, eagleview_order_id := some "EV-1",
        created_at := 0, updated_at := 0 }).status = .VERIFIED) ∧
    ((check_order_now 5 (.resp 200 "CANCELLED") (.ok {})
      { address := "X", status := .VERIFIED, eagleview_order_id := some "EV-1",
        created_at := 0, updated_at := 0 }).status = .FAILED) := by
  refine ⟨?_, ?_, ?_, ?_, ?_⟩
  · exact C1_amended.1 5 (fun _ => .httpError "e") (fun _ => .error "e") _ (by decide)
  · exact C1_amended.2.1 5 (.httpError "e") (.error "e") _ (by decide)
  · exact C1_amended.2.2.1 5 (.resp 200 "COMPLETED") (.ok {}) _ (by decide) (by decide)
  · exact C1_amended.2.2.2.1 5 (.resp 200 "COMPLETED") (.ok {}) _ {} (by decide) (by decide)
      (by rfl)
  · exact C1_amended.2.2.2.2 5 (.resp 200 "CANCELLED") (.ok {}) _ (by decide)

/-! ### C6 — reconciler timeout handling -/

/-- C6: in a reconciler cycle, a `PENDING` order older than 72 hours is
failed with the timeout message before any provider poll is issued (the
poll flag of `reconcile_order` is `false`), and it does not remain
`PENDING`. -/
theorem C6_timeout_before_poll (now : Nat) (pr : PollOutcome) (rep : Except String EVReport)
    (prOf : RoofOrder → PollOutcome) (repOf : RoofOrder → Except String EVReport)
    (o : RoofOrder) (hp : o.status = .PENDING) (ht : 72 * 3600 < now - o.created_at) :
    (reconcile_order now pr rep o).1.status = .FAILED ∧
    (reconcile_order now pr rep o).1.message = some "Order timed out after 72h" ∧
    (reconcile_order now pr rep o).2 = false ∧
    (reconcile_order now pr rep o).1.status ≠ .PENDING ∧
    cycleStep now prOf repOf o = (reconcile_order now (prOf o) (repOf o) o).1 := by
  refine ⟨?_, ?_, ?_, ?_, ?_⟩ <;>
    simp [reconcile_order, cycleStep, hp, ht]

/-- Witness for `C6_timeout_before_poll`: an order created at time 0,
reconciled at 300000 s (> 72 h), with a provider that never answers. -/
theorem C6_timeout_witness :
    (reconcile_order 300000 (.httpError "e") (.error "e")
      { address := "A", status := .PENDING, created_at := 0, updated_at := 0 }).1.status =
      .FAILED ∧
    (reconcile_order 300000 (.httpError "e") (.error "e")
      { address := "A", status := .PENDING, created_at := 0, updated_at := 0 }).2 = false := by
  have h := C6_timeout_before_poll 300000 (.httpError "e") (.error "e")
    (fun _ => .httpError "e") (fun _ => .error "e")
    { address := "A", status := .PENDING, created_at := 0, updated_at := 0 }
    (by decide) (by decide)
  exact ⟨h.1, h.2.2.1⟩

/-! ### C2 — mock-mode end-to-end order flow -/

/-- The `PENDING` record a mock placement would create (used to run the
force-check leg of the mock flow). -/
def c2MockOrder : RoofOrder :=
  { address := "1 Main St", status := .PENDING,
    eagleview_order_id := some ("MOCK-ORD-" ++ natStr 1000),
    created_at := 1000, updated_at := 1000 }

/-- C2 evaluated on the code. With the default settings (mock mode on,
live mode off), `create_tier2_order` raises `EagleViewDisabledError` at
its own duplicated safety check, before `place_order`'s mock bypass can
run — so the claimed mock flow never starts. Every downstream leg of the
claim does hold: `place_order` itself returns a `MOCK-`-prefixed
synthetic id and logs a single zero-cost usage entry, and a force-check
on the resulting `PENDING` mock order verifies it with area 2500 and
pitch `6/12`. -/
theorem C2_mock_flow_eval :
    ((create_tier2_order {} "2026-10-12" [] 1000 (.cachedToken "t") (.resp 200 (some "x"))
        "1 Main St" 1 2 none "PREMIUM").1 = .error (.disabled disabledReason) ∧
      (∀ counts : List DailyOrderCount, ∀ today now,
        (create_tier2_order {} today counts now (.cachedToken "t") (.resp 200 (some "x"))
          "1 Main St" 1 2 none "PREMIUM").1 = .error (.disabled disabledReason))) ∧
    ((place_order {} "2026-10-12" [] 1000 (.cachedToken "t") (.resp 200 (some "x"))
        "1 Main St" 1 2 "PREMIUM").1 = .ok ("MOCK-ORD-" ++ natStr 1000) ∧
      strStartsWith ("MOCK-ORD-" ++ natStr 1000) "MOCK-" = true ∧
      (place_order {} "2026-10-12" [] 1000 (.cachedToken "t") (.resp 200 (some "x"))
        "1 Main St" 1 2 "PREMIUM").2.1 = [] ∧
      (place_order {} "2026-10-12" [] 1000 (.cachedToken "t") (.resp 200 (some "x"))
        "1 Main St" 1 2 "PREMIUM").2.2 = [.apiLog "orders" "POST (MOCK)" 0 true]) ∧
    (c2MockOrder.status = .PENDING ∧
      (check_order_now 2000 (.resp 200 "") (.ok {}) c2MockOrder).status = .VERIFIED ∧
      (check_order_now 2000 (.resp 200 "") (.ok {}) c2MockOrder).total_area_sqft = 2500 ∧
      (check_order_now 2000 (.resp 200 "") (.ok {}) c2MockOrder).predominant_pitch = "6/12") := by
  refine ⟨⟨by rfl, ?_⟩, ⟨by rfl, by decide, by rfl, by rfl⟩, by decide, by decide, by decide,
    by decide⟩
  intro counts today now
  have h : (check_safety_controls {} today counts).1 = false := by
    simp [check_safety_controls]
  unfold create_tier2_order
  simp only [h, Bool.not_false, if_true]
  have h2 : (check_safety_controls {} today counts).2 = disabledReason := by
    simp [check_safety_controls]
  rw [h2]
  have : classifySafetyFailure disabledReason = .disabled disabledReason := by decide
  rw [this]

/-! ### C3 — safety-gate outcomes and their error classes -/

/-- Every character `natCharsAux` emits is a decimal digit. -/
theorem natCharsAux_digits (fuel : Nat) : ∀ (n : Nat) (acc : List Char),
    (∀ c ∈ acc, c ∈ "0123456789".data) → ∀ c ∈ natCharsAux fuel n acc, c ∈ "0123456789".data := by
  induction fuel with
  | zero =>
    intro n acc hacc c hc
    simpa [natCharsAux] using hacc c (by simpa [natCharsAux] using hc)
  | succ fuel ih =>
    intro n acc hacc c hc
    have hdig : Char.ofNat (48 + n % 10) ∈ "0123456789".data := by
      have hk : n % 10 < 10 := Nat.mod_lt _ (by norm_num)
      set k := n % 10 with hkdef
      interval_cases k <;> decide
    simp only [natCharsAux] at hc
    by_cases hn : n < 10
    · simp only [hn, if_true] at hc
      rcases List.mem_cons.1 hc with h | h
      · exact h ▸ hdig
      · exact hacc c h
    · simp only [hn, if_false] at hc
      refine ih (n / 10) _ ?_ c hc
      intro c' hc'
      rcases List.mem_cons.1 hc' with h | h
      · exact h ▸ hdig
      · exact hacc c' h

/-- Every character of a rendered natural number is a decimal digit. -/
theorem natChars_digits (n : Nat) : ∀ c ∈ natChars n, c ∈ "0123456789".data :=
  natCharsAux_digits (n + 1) n [] (by intro c hc; cases hc)

/-- A successful prefix test means every prefix character occurs in the
list. -/
theorem startsWithChars_subset : ∀ (p l : List Char),
    startsWithChars p l = true → ∀ c ∈ p, c ∈ l := by
  intro p
  induction p with
  | nil => intro l _ c hc; cases hc
  | cons a as ih =>
    intro l h c hc
    cases l with
    | nil => simp [startsWithChars] at h
    | cons b bs =>
      simp only [startsWithChars, Bool.and_eq_true, beq_iff_eq] at h
      rcases List.mem_cons.1 hc with rfl | hmem
      · exact h.1 ▸ List.mem_cons_self _ _
      · exact List.mem_cons_of_mem _ (ih bs h.2 c hmem)

/-- A successful substring test means every needle character occurs in
the haystack. -/
theorem containsSub_subset : ∀ (hay needle : List Char),
    containsSub hay needle = true → ∀ c ∈ needle, c ∈ hay := by
  intro hay
  induction hay with
  | nil =>
    intro needle h c hc
    cases needle with
    | nil => cases hc
    | cons x xs => simp [containsSub, startsWithChars] at h
  | cons a t ih =>
    intro needle h c hc
    rw [containsSub, Bool.or_eq_true] at h
    rcases h with h | h
    · exact startsWithChars_subset needle (a :: t) h c hc
    · exact List.mem_cons_of_mem _ (ih needle h c hc)

/-- Lower-casing fixes decimal digits, and no digit is the letter b. -/
theorem digit_lower_ne_b : ∀ c ∈ "0123456789".data, Char.toLower c = c ∧ c ≠ 'b' := by
  decide

/-- The letter b never occurs in a lower-cased quota reason, whatever
the interpolated counts are. -/
theorem quotaReason_no_b (cc ll : Nat) : 'b' ∉ lowerChars (quotaReasonChars cc ll) := by
  intro hb
  simp only [quotaReasonChars, lowerChars, List.map_append, List.mem_append] at hb
  have hdig : ∀ n : Nat, 'b' ∈ List.map Char.toLower (natChars n) → False := by
    intro n h
    obtain ⟨d, hd, hdb⟩ := List.mem_map.1 h
    obtain ⟨heq, hne⟩ := digit_lower_ne_b d (natChars_digits n d hd)
    exact hne (heq ▸ hdb)
  rcases hb with ((((((h | h) | h) | h) | h) | h) | h)
  · revert h; decide
  · exact hdig _ h
  · revert h; decide
  · exact hdig _ h
  · revert h; decide
  · exact hdig _ h
  · revert h; decide

/-- The quota reason is always classified as the daily-limit error. -/
theorem classify_quotaReason (cc ll : Nat) :
    classifySafetyFailure (quotaReason cc ll) = .dailyLimitExceeded (quotaReason cc ll) := by
  unfold classifySafetyFailure
  have h : strContains (lowerStr (quotaReason cc ll)) "disabled" = false := by
    by_contra hb
    have ht : containsSub (lowerChars (quotaReasonChars cc ll)) "disabled".data = true := by
      have : strContains (lowerStr (quotaReason cc ll)) "disabled" = true :=
        Bool.not_eq_false _ ▸ (by revert hb; cases strContains (lowerStr (quotaReason cc ll)) "disabled" <;> simp)
      exact this
    exact quotaReason_no_b cc ll
      (containsSub_subset _ _ ht 'b' (by decide))
  rw [h]
  simp

/-- The disabled reason is always classified as the disabled error. -/
theorem classify_disabledReason :
    classifySafetyFailure disabledReason = .disabled disabledReason := by
  decide

/-- C3: with live mode off the gate denies with the disabled reason,
whatever the quota state; with live mode on and today's count at or
above the limit it denies with the (distinct) quota reason; the
order-creation path maps the two reasons to the two distinct error
classes; and on a fresh UTC date with no counter row (default limit 5)
the gate allows again. -/
theorem C3_safety_gate :
    (∀ (s : EVSettings) (today : String) (counts : List DailyOrderCount),
      s.eagleview_live_mode = false →
      check_safety_controls s today counts = (false, disabledReason)) ∧
    (∀ (s : EVSettings) (today : String) (counts : List DailyOrderCount),
      s.eagleview_live_mode = true →
      s.eagleview_daily_order_limit ≤ currentCount counts today →
      check_safety_controls s today counts =
        (false, quotaReason (currentCount counts today) s.eagleview_daily_order_limit) ∧
      disabledReason ≠ quotaReason (currentCount counts today) s.eagleview_daily_order_limit) ∧
    (∀ (s : EVSettings) (today : String) (counts : List DailyOrderCount) (now : Nat)
        (auth : AuthOutcome) (outcome : PlaceOutcome) (address : String) (lat lng : ℚ)
        (tier1 : Option RoofMeasurementResponse) (rt : String),
      s.eagleview_live_mode = false →
      (create_tier2_order s today counts now auth outcome address lat lng tier1 rt).1 =
        .error (.disabled disabledReason)) ∧
    (∀ (s : EVSettings) (today : String) (counts : List DailyOrderCount) (now : Nat)
        (auth : AuthOutcome) (outcome : PlaceOutcome) (address : String) (lat lng : ℚ)
        (tier1 : Option RoofMeasurementResponse) (rt : String),
      s.eagleview_live_mode = true →
      s.eagleview_daily_order_limit ≤ currentCount counts today →
      (create_tier2_order s today counts now auth outcome address lat lng tier1 rt).1 =
        .error (.dailyLimitExceeded
          (quotaReason (currentCount counts today) s.eagleview_daily_order_limit))) ∧
    (∀ (s : EVSettings) (today : String) (counts : List DailyOrderCount),
      s.eagleview_live_mode = true → s.eagleview_daily_order_limit = 5 →
      lookupDailyCount counts today = none →
      check_safety_controls s today counts = (true, "")) := by
  have hoff : ∀ (s : EVSettings) (today : String) (counts : List DailyOrderCount),
      s.eagleview_live_mode = false →
      check_safety_controls s today counts = (false, disabledReason) := by
    intro s today counts h
    simp [check_safety_controls, h]
  have hquota : ∀ (s : EVSettings) (today : String) (counts : List DailyOrderCount),
      s.eagleview_live_mode = true →
      s.eagleview_daily_order_limit ≤ currentCount counts today →
      check_safety_controls s today counts =
        (false, quotaReason (currentCount counts today) s.eagleview_daily_order_limit) := by
    intro s today counts h hle
    simp [check_safety_controls, h, hle]
  have hne : ∀ cc ll : Nat, disabledReason ≠ quotaReason cc ll := by
    intro cc ll he
    have h1 := classify_disabledReason
    rw [he, classify_quotaReason] at h1
    exact absurd h1 (by simp)
  refine ⟨hoff, ?_, ?_, ?_, ?_⟩
  · intro s today counts h hle
    exact ⟨hquota s today counts h hle, hne _ _⟩
  · intro s today counts now auth outcome address lat lng tier1 rt h
    unfold create_tier2_order
    rw [hoff s today counts h]
    simpa using classify_disabledReason
  · intro s today counts now auth outcome address lat lng tier1 rt h hle
    unfold create_tier2_order
    rw [hquota s today counts h hle]
    simpa using classify_quotaReason (currentCount counts today) s.eagleview_daily_order_limit
  · intro s today counts h h5 hnone
    simp [check_safety_controls, h, h5, currentCount, hnone]

/-- Witness for `C3_safety_gate`: default settings (live off), a
live-mode gate at its limit (count 5 of 5), and a live-mode gate on a
fresh date. -/
theorem C3_safety_gate_witness :
    check_safety_controls {} "2026-10-12" [⟨"2026-10-12", 5, 150⟩] = (false, disabledReason) ∧
    check_safety_controls
        { eagleview_live_mode := true, eagleview_mock_mode := false,
          eagleview_daily_order_limit := 5 }
        "2026-10-12" [⟨"2026-10-12", 5, 150⟩] = (false, quotaReason 5 5) ∧
    (create_tier2_order {} "2026-10-12" [] 0 (.cachedToken "t") (.resp 200 (some "x"))
        "A" 0 0 none "PREMIUM").1 = .error (.disabled disabledReason) ∧
    (create_tier2_order
        { eagleview_live_mode := true, eagleview_mock_mode := false,
          eagleview_daily_order_limit := 5 }
        "2026-10-12" [⟨"2026-10-12", 5, 150⟩] 0 (.cachedToken "t") (.resp 200 (some "x"))
        "A" 0 0 none "PREMIUM").1 = .error (.dailyLimitExceeded (quotaReason 5 5)) ∧
    check_safety_controls
        { eagleview_live_mode := true, eagleview_mock_mode := false,
          eagleview_daily_order_limit := 5 }
        "2026-10-13" [⟨"2026-10-12", 5, 150⟩] = (true, "") := by
  refine ⟨?_, ?_, ?_, ?_, ?_⟩
  · exact C3_safety_gate.1 _ "2026-10-12" _ (by decide)
  · exact C3_safety_gate.2.1 _ "2026-10-12" _ (by decide) (by decide) |>.1
  · exact C3_safety_gate.2.2.1 _ "2026-10-12" _ 0 (.cachedToken "t") (.resp 200 (some "x"))
      "A" 0 0 none "PREMIUM" (by decide)
  · exact C3_safety_gate.2.2.2.1 _ "2026-10-12" _ 0 (.cachedToken "t") (.resp 200 (some "x"))
      "A" 0 0 none "PREMIUM" (by decide) (by decide)
  · exact C3_safety_gate.2.2.2.2 _ "2026-10-13" _ (by decide) (by decide) (by rfl)

/-! ### C4 — daily counter discipline in live `place_order` -/

/-- A live, non-mock configuration (limit 5). -/
def liveSettings : EVSettings :=
  { eagleview_live_mode := true, eagleview_mock_mode := false, eagleview_daily_order_limit := 5 }

/-- C4 counterexample: the code treats only statuses 200/201/202 as
success, not every 2xx response. A 206 response carrying an order id is
a success by the claim's definition (2xx with an order identifier), so
the claim demands one increment; the code instead raises and leaves the
daily counter unchanged. -/
theorem C4_counterexample :
    (200 ≤ 206 ∧ 206 < 300) ∧
    (place_order liveSettings "2026-10-12" [] 0 (.cachedToken "t") (.resp 206 (some "ORD-1"))
      "A" 0 0 "PREMIUM").1 = .error (.valueError "EagleView order failed") ∧
    (place_order liveSettings "2026-10-12" [] 0 (.cachedToken "t") (.resp 206 (some "ORD-1"))
      "A" 0 0 "PREMIUM").2.1 = [] := by
  exact ⟨by decide, by rfl, by rfl⟩

/-- Increments that occur only after a logged successful order POST. -/
def incrementsAfterSuccessAux : Bool → List EVEvent → Bool
  | _, [] => true
  | seen, .incrementDaily :: t => seen && incrementsAfterSuccessAux seen t
  | seen, .apiLog ep m _ ok :: t =>
    incrementsAfterSuccessAux (seen || (ep == "orders" && m == "POST" && ok)) t

/-- Every `incrementDaily` in the trace is preceded by a successful
`orders` POST log entry. -/
def incrementsAfterSuccess (tr : List EVEvent) : Bool := incrementsAfterSuccessAux false tr

/-- The auth call neither increments the counter nor counts as a
successful order POST. -/
theorem token_trace_neutral (s : EVSettings) (auth : AuthOutcome) (t : List EVEvent) :
    incrementsAfterSuccessAux false ((get_bearer_token s auth).2 ++ t) =
      incrementsAfterSuccessAux false t ∧
    ((get_bearer_token s auth).2).count .incrementDaily = 0 := by
  rcases auth with tk | r
  · by_cases hm : s.eagleview_mock_mode <;>
      simp [get_bearer_token, hm, incrementsAfterSuccessAux]
  · rcases r with tk2 | e <;> by_cases hm : s.eagleview_mock_mode <;>
      simp [get_bearer_token, hm, incrementsAfterSuccessAux]

/-- `find?` by date commutes with a date-preserving conditional map. -/
theorem find?_map_upd (today : String) (upd : DailyOrderCount → DailyOrderCount)
    (hdate : ∀ c, (upd c).date = c.date) (counts : List DailyOrderCount) :
    (counts.map (fun c => if c.date == today then upd c else c)).find?
        (fun c => c.date == today) =
      (counts.find? (fun c => c.date == today)).map upd := by
  induction counts with
  | nil => rfl
  | cons x t ih =>
    simp only [List.map_cons]
    by_cases hx : x.date == today
    · have h2 : ((upd x).date == today) = true := by
        rw [hdate]
        exact hx
      rw [if_pos hx]
      simp only [List.find?_cons, h2, hx]
      rfl
    · have hxf : (x.date == today) = false := by
        simpa using hx
      have h2f : ((upd x).date == today) = false := by
        rw [hdate]
        exact hxf
      rw [if_neg hx]
      simp only [List.find?_cons, hxf]
      exact ih

/-- Incrementing the daily count raises today's count by exactly one. -/
theorem currentCount_increment (today : String) (counts : List DailyOrderCount) :
    currentCount (increment_daily_count today counts) today = currentCount counts today + 1 := by
  unfold increment_daily_count
  cases h : lookupDailyCount counts today with
  | none =>
    have h' : counts.find? (fun c => c.date == today) = none := h
    simp [currentCount, lookupDailyCount, List.find?_append, h', List.find?]
  | some c =>
    have h' : counts.find? (fun c => c.date == today) = some c := h
    simp only [currentCount, lookupDailyCount]
    rw [find?_map_upd today
      (fun c => { c with eagleview_orders := c.eagleview_orders + 1,
                         total_cost_usd := c.total_cost_usd + COST_EAGLEVIEW_ORDER })
      (fun c' => rfl) counts]
    rw [h']
    rfl

/-- C4 (amended): in a live, non-mock `place_order` call, the daily
counter is incremented exactly once, and only after the provider call
succeeded with status 200, 201 or 202 and a response carrying an order
id; on every failed attempt (status outside 200/201/202, network error,
or a response missing the order id) the counter is unchanged and no
increment event occurs. -/
theorem C4_amended :
    (∀ (s : EVSettings) (today : String) (counts : List DailyOrderCount) (now : Nat)
        (auth : AuthOutcome) (address : String) (lat lng : ℚ) (rt : String)
        (status : Nat) (oid tok : String),
      s.eagleview_mock_mode = false →
      (check_safety_controls s today counts).1 = true →
      (get_bearer_token s auth).1 = .ok tok →
      (status = 200 ∨ status = 201 ∨ status = 202) →
      (place_order s today counts now auth (.resp status (some oid))
          address lat lng rt).1 = .ok oid ∧
      (place_order s today counts now auth (.resp status (some oid))
          address lat lng rt).2.1 = increment_daily_count today counts ∧
      currentCount (place_order s today counts now auth (.resp status (some oid))
          address lat lng rt).2.1 today = currentCount counts today + 1 ∧
      ((place_order s today counts now auth (.resp status (some oid))
          address lat lng rt).2.2).count .incrementDaily = 1 ∧
      incrementsAfterSuccess (place_order s today counts now auth (.resp status (some oid))
          address lat lng rt).2.2 = true) ∧
    (∀ (s : EVSettings) (today : String) (counts : List DailyOrderCount) (now : Nat)
        (auth : AuthOutcome) (address : String) (lat lng : ℚ) (rt : String)
        (outcome : PlaceOutcome),
      s.eagleview_mock_mode = false →
      (match outcome with
        | .httpError _ => True
        | .resp status oid => ¬(status = 200 ∨ status = 201 ∨ status = 202) ∨ oid = none) →
      (place_order s today counts now auth outcome address lat lng rt).2.1 = counts ∧
      ((place_order s today counts now auth outcome address lat lng rt).2.2).count
        .incrementDaily = 0) := by
  constructor
  · intro s today counts now auth address lat lng rt status oid tok hmock hsafe hauth hst
    have hok : (status == 200 || status == 201 || status == 202) = true := by
      rcases hst with rfl | rfl | rfl <;> decide
    rcases hgb : get_bearer_token s auth with ⟨res, tr⟩
    rw [hgb] at hauth
    have hres : res = .ok tok := hauth
    subst hres
    have htr0 : tr.count EVEvent.incrementDaily = 0 := by
      have := (token_trace_neutral s auth []).2
      rw [hgb] at this
      exact this
    have hexp : place_order s today counts now auth (.resp status (some oid))
        address lat lng rt =
        (.ok oid, increment_daily_count today counts,
          (tr ++ [.apiLog "orders" "POST" COST_EAGLEVIEW_ORDER true]) ++ [.incrementDaily]) := by
      simp [place_order, hmock, hsafe, hgb, hok]
    rw [hexp]
    refine ⟨rfl, rfl, currentCount_increment today counts, ?_, ?_⟩
    · simp [htr0]
    · show incrementsAfterSuccessAux false
        ((tr ++ [.apiLog "orders" "POST" COST_EAGLEVIEW_ORDER true]) ++ [.incrementDaily]) = true
      rw [List.append_assoc]
      have := (token_trace_neutral s auth
        ([.apiLog "orders" "POST" COST_EAGLEVIEW_ORDER true] ++ [.incrementDaily])).1
      rw [hgb] at this
      rw [this]
      decide
  · intro s today counts now auth address lat lng rt outcome hmock houtcome
    by_cases hsafe : (check_safety_controls s today counts).1
    · rcases hgb : get_bearer_token s auth with ⟨res, tr⟩
      have htr0 : tr.count EVEvent.incrementDaily = 0 := by
        have := (token_trace_neutral s auth []).2
        rw [hgb] at this
        exact this
      cases res with
      | error e => simp [place_order, hmock, hsafe, hgb, htr0]
      | ok tok =>
        cases outcome with
        | httpError msg => simp [place_order, hmock, hsafe, hgb, htr0]
        | resp status oid =>
          rcases houtcome with hbad | hnone
          · have hok : (status == 200 || status == 201 || status == 202) = false := by
              by_cases h200 : status = 200
              · exact absurd (Or.inl h200) hbad
              by_cases h201 : status = 201
              · exact absurd (Or.inr (Or.inl h201)) hbad
              by_cases h202 : status = 202
              · exact absurd (Or.inr (Or.inr h202)) hbad
              simp [h200, h201, h202]
            simp [place_order, hmock, hsafe, hgb, hok, htr0]
          · subst hnone
            by_cases hok : (status == 200 || status == 201 || status == 202) <;>
              simp [place_order, hmock, hsafe, hgb, hok, htr0]
    · have hs : (check_safety_controls s today counts).1 = false := by
        simpa using hsafe
      simp [place_order, hmock, hs]

/-- Witness for `C4_amended`: a successful live placement (status 201)
and a failed one (network error), from an empty counter table. -/
theorem C4_amended_witness :
    ((place_order liveSettings "2026-10-12" [] 7 (.cachedToken "t") (.resp 201 (some "ORD-9"))
        "A" 0 0 "PREMIUM").1 = .ok "ORD-9" ∧
      currentCount (place_order liveSettings "2026-10-12" [] 7 (.cachedToken "t")
        (.resp 201 (some "ORD-9")) "A" 0 0 "PREMIUM").2.1 "2026-10-12" =
        currentCount [] "2026-10-12" + 1 ∧
      ((place_order liveSettings "2026-10-12" [] 7 (.cachedToken "t")
        (.resp 201 (some "ORD-9")) "A" 0 0 "PREMIUM").2.2).count .incrementDaily = 1) ∧
    ((place_order liveSettings "2026-10-12" [] 7 (.cachedToken "t") (.httpError "timeout")
        "A" 0 0 "PREMIUM").2.1 = [] ∧
      ((place_order liveSettings "2026-10-12" [] 7 (.cachedToken "t") (.httpError "timeout")
        "A" 0 0 "PREMIUM").2.2).count .incrementDaily = 0) := by
  have h1 := C4_amended.1 liveSettings "2026-10-12" [] 7 (.cachedToken "t")
    "A" 0 0 "PREMIUM" 201 "ORD-9" "t" (by rfl) (by rfl) (by rfl) (by decide)
  have h2 := C4_amended.2 liveSettings "2026-10-12" [] 7 (.cachedToken "t")
    "A" 0 0 "PREMIUM" (.httpError "timeout") (by rfl) (by exact True.intro)
  exact ⟨⟨h1.1, h1.2.2.1, h1.2.2.2.1⟩, ⟨h2.1, h2.2⟩⟩

/-! ### C5 — graceful degradation of the free tier -/

/-- When no stored payload exists for the address, `get_tier1_estimate`
takes the fresh-fetch path. -/
theorem tier1_fresh_path (address : String) (store : List RoofOrder)
    (geo : Except GFail (ℚ × ℚ)) (ins : Except GFail SolarPayload) (now : Nat)
    (hmiss : cachedPayload store address = none) :
    get_tier1_estimate address store geo ins now =
      tier1Fresh address store (cacheLookup store (addrHash address)) (addrHash address)
        geo ins now := by
  unfold cachedPayload at hmiss
  cases h : cacheLookup store (addrHash address) with
  | none => simp only [get_tier1_estimate, h]
  | some o =>
    rw [h] at hmiss
    simp at hmiss
    simp only [get_tier1_estimate, h, hmiss]

/-- A string starting with a nonempty literal is nonempty. -/
theorem append_ne_empty (s t : String) (hs : s.length ≠ 0) : s ++ t ≠ "" := by
  intro h
  have hl := congrArg String.length h
  rw [String.length_append] at hl
  have : String.length "" = 0 := rfl
  omega

/-- C5: on a cache miss, any geocoding or building-insight failure makes
`get_tier1_estimate` return (not raise) the canonical `MANUAL_REVIEW`
result: confidence 0, area 0, and a nonempty descriptive message. -/
theorem C5_provider_failure_degrades (address : String) (store : List RoofOrder)
    (geo : Except GFail (ℚ × ℚ)) (ins : Except GFail SolarPayload) (now : Nat) (e : GFail)
    (hmiss : cachedPayload store address = none) :
    (geo = .error e →
      (get_tier1_estimate address store geo ins now).response = manualReviewResponse address e) ∧
    (∀ latlng, geo = .ok latlng → ins = .error e →
      (get_tier1_estimate address store geo ins now).response = manualReviewResponse address e) ∧
    ((manualReviewResponse address e).status = .MANUAL_REVIEW ∧
      (manualReviewResponse address e).confidence_score = some 0 ∧
      (manualReviewResponse address e).total_area_sqft = 0 ∧
      ∃ m, (manualReviewResponse address e).message = some m ∧ m ≠ "") := by
  rw [tier1_fresh_path address store geo ins now hmiss]
  refine ⟨?_, ?_, rfl, rfl, rfl, ?_⟩
  · intro hgeo
    subst hgeo
    rfl
  · rintro ⟨lat, lng⟩ hgeo hins
    subst hgeo
    subst hins
    rfl
  · cases e with
    | valueError msg =>
      exact ⟨_, rfl, append_ne_empty "Estimate unavailable: " msg (by decide)⟩
    | httpError msg =>
      exact ⟨_, rfl, append_ne_empty "Service temporarily unavailable: " msg (by decide)⟩

/-- Witness for `C5_provider_failure_degrades`: an empty store, a
geocoding network failure and a building-insight not-found failure. -/
theorem C5_witness :
    (get_tier1_estimate "A" [] (.error (.httpError "timeout")) (.ok {}) 0).response =
      manualReviewResponse "A" (.httpError "timeout") ∧
    (get_tier1_estimate "A" [] (.ok (1, 2))
        (.error (.valueError "Building not found in Google Solar database")) 0).response =
      manualReviewResponse "A" (.valueError "Building not found in Google Solar database") ∧
    (manualReviewResponse "A" (.httpError "timeout")).status = .MANUAL_REVIEW ∧
    (manualReviewResponse "A" (.httpError "timeout")).confidence_score = some 0 ∧
    (manualReviewResponse "A" (.httpError "timeout")).total_area_sqft = 0 := by
  have h1 := C5_provider_failure_degrades "A" [] (.error (.httpError "timeout")) (.ok {}) 0
    (.httpError "timeout") (by rfl)
  have h2 := C5_provider_failure_degrades "A" []
    (.ok (1, 2)) (.error (.valueError "Building not found in Google Solar database")) 0
    (.valueError "Building not found in Google Solar database") (by rfl)
  exact ⟨h1.1 rfl, h2.2.1 (1, 2) rfl rfl, h1.2.2.1, h1.2.2.2.1, h1.2.2.2.2.1⟩

/-! ### C10 — failures are never written to the cache -/

/-- The fresh path always issues the geocoding call (it appears in the
usage trace), whatever the provider outcomes. -/
theorem tier1Fresh_trace_geocode (address : String) (store : List RoofOrder)
    (cached : Option RoofOrder) (h : String) (geo : Except GFail (ℚ × ℚ))
    (ins : Except GFail SolarPayload) (now : Nat) :
    ∃ b, GEvent.geocodeCall b ∈ (tier1Fresh address store cached h geo ins now).trace := by
  rcases geo with e | ⟨lat, lng⟩
  · exact ⟨false, by simp [tier1Fresh]⟩
  · rcases ins with e | raw
    · exact ⟨true, by simp [tier1Fresh]⟩
    · exact ⟨true, by simp [tier1Fresh]⟩

/-- C10: on a cache miss, a provider failure leaves the order store
untouched (no record is created or updated; only usage-log events are
emitted), so the failure is not cached and any later request for the
same address issues the geocoding call again. -/
theorem C10_failure_leaves_store (address : String) (store : List RoofOrder)
    (geo : Except GFail (ℚ × ℚ)) (ins : Except GFail SolarPayload) (now : Nat)
    (hmiss : cachedPayload store address = none) :
    (∀ e, geo = .error e →
      (get_tier1_estimate address store geo ins now).store = store ∧
      (get_tier1_estimate address store geo ins now).response.status = .MANUAL_REVIEW ∧
      (∀ (geo2 : Except GFail (ℚ × ℚ)) (ins2 : Except GFail SolarPayload) (now2 : Nat),
        ∃ b, GEvent.geocodeCall b ∈
          (get_tier1_estimate address (get_tier1_estimate address store geo ins now).store
            geo2 ins2 now2).trace)) ∧
    (∀ latlng e, geo = .ok latlng → ins = .error e →
      (get_tier1_estimate address store geo ins now).store = store ∧
      (get_tier1_estimate address store geo ins now).response.status = .MANUAL_REVIEW ∧
      (∀ (geo2 : Except GFail (ℚ × ℚ)) (ins2 : Except GFail SolarPayload) (now2 : Nat),
        ∃ b, GEvent.geocodeCall b ∈
          (get_tier1_estimate address (get_tier1_estimate address store geo ins now).store
            geo2 ins2 now2).trace)) := by
  have hretry : (get_tier1_estimate address store geo ins now).store = store →
      ∀ (geo2 : Except GFail (ℚ × ℚ)) (ins2 : Except GFail SolarPayload) (now2 : Nat),
        ∃ b, GEvent.geocodeCall b ∈
          (get_tier1_estimate address (get_tier1_estimate address store geo ins now).store
            geo2 ins2 now2).trace := by
    intro hst geo2 ins2 now2
    rw [hst, tier1_fresh_path address store geo2 ins2 now2 hmiss]
    exact tier1Fresh_trace_geocode address store _ _ geo2 ins2 now2
  constructor
  · intro e hgeo
    subst hgeo
    have hst : (get_tier1_estimate address store (.error e) ins now).store = store := by
      rw [tier1_fresh_path address store _ ins now hmiss]
      rfl
    refine ⟨hst, ?_, hretry hst⟩
    rw [tier1_fresh_path address store _ ins now hmiss]
    rfl
  · rintro ⟨lat, lng⟩ e hgeo hins
    subst hgeo
    subst hins
    have hst : (get_tier1_estimate address store (.ok (lat, lng)) (.error e) now).store =
        store := by
      rw [tier1_fresh_path address store _ _ now hmiss]
      rfl
    refine ⟨hst, ?_, hretry hst⟩
    rw [tier1_fresh_path address store _ _ now hmiss]
    rfl

/-- The one-row store used by the C10 witness. -/
def c10Store : List RoofOrder :=
  [{ address := "B", normalized_address_hash := some "b", created_at := 0, updated_at := 0 }]

/-- Witness for `C10_failure_leaves_store`: a store already holding an
unrelated order, a not-found geocoding failure, then an insight
failure. -/
theorem C10_witness :
    (get_tier1_estimate "A" c10Store
      (.error (.valueError "Geocoding failed: ZERO_RESULTS")) (.ok {}) 0).store = c10Store ∧
    (get_tier1_estimate "A" c10Store
      (.ok (1, 2)) (.error (.httpError "timeout")) 0).store = c10Store := by
  have h1 := (C10_failure_leaves_store "A" c10Store
    (.error (.valueError "Geocoding failed: ZERO_RESULTS")) (.ok {}) 0 (by rfl)).1
    (.valueError "Geocoding failed: ZERO_RESULTS") rfl
  have h2 := (C10_failure_leaves_store "A" c10Store
    (.ok (1, 2)) (.error (.httpError "timeout")) 0 (by rfl)).2
    (1, 2) (.httpError "timeout") rfl rfl
  exact ⟨h1.1, h2.1⟩

/-! ### C7 — address normalization and the Tier-1 cache -/

/-- `String.append` acts as list append on the character data. -/
theorem dataAppend (s t : String) : (s ++ t).data = s.data ++ t.data := by
  cases s
  cases t
  rfl

/-- All whitespace only at both ends of a list can be trimmed away
around the core. -/
theorem trimChars_append_ws (w1 w2 l : List Char)
    (h1 : ∀ c ∈ w1, c.isWhitespace = true) (h2 : ∀ c ∈ w2, c.isWhitespace = true) :
    trimChars (w1 ++ l ++ w2) = trimChars l := by
  unfold trimChars
  rw [List.append_assoc, List.dropWhile_append_of_pos h1]
  rw [List.dropWhile_append]
  by_cases hnil : (l.dropWhile Char.isWhitespace).isEmpty
  · rw [if_pos hnil]
    have hw2 : w2.dropWhile Char.isWhitespace = [] := by
      rw [List.dropWhile_eq_nil_iff]
      intro x hx
      exact h2 x hx
    rw [hw2]
    have hl : l.dropWhile Char.isWhitespace = [] := by
      cases h : l.dropWhile Char.isWhitespace with
      | nil => rfl
      | cons x t =>
        rw [h] at hnil
        simp [List.isEmpty] at hnil
    rw [hl]
  · rw [if_neg hnil]
    rw [List.reverse_append, List.dropWhile_append_of_pos (by
      intro c hc
      exact h2 c (List.mem_reverse.1 hc))]

/-- Lower-casing maps the character data through `lowerChars`. -/
theorem addrHash_eq (a : String) : addrHash a = ⟨trimChars (lowerChars a.data)⟩ := rfl

/-- Whitespace characters are untouched by `Char.toLower`. -/
theorem toLower_ws (c : Char) (h : c.isWhitespace = true) : c.toLower = c := by
  simp [Char.isWhitespace] at h
  rcases h with ((h | h) | h) | h <;> subst h <;> decide

/-- Removal of every whitespace character (used to state that two
addresses differ only by whitespace). -/
def stripAllWhitespace (l : List Char) : List Char := l.filter (fun c => !c.isWhitespace)

/-- C7 counterexample: two addresses that differ only by (internal)
whitespace do not normalize to the same hash — `.strip()` removes only
leading and trailing whitespace, so `"123 Main St"` and
`"123  Main St"` occupy different cache entries. -/
theorem C7_counterexample :
    stripAllWhitespace (lowerChars "123 Main St".data) =
      stripAllWhitespace (lowerChars "123  Main St".data) ∧
    addrHash "123 Main St" ≠ addrHash "123  Main St" := by
  decide

/-- C7 (amended): a cache hit with a stored payload returns the
re-normalized payload flagged `is_cached = true`, leaves the store
unchanged and issues no provider call; and two addresses that differ
only by case, or only by leading/trailing whitespace, normalize to the
same hash (internal whitespace differences yield different keys, as the
counterexample shows). -/
theorem C7_amended :
    (∀ (address : String) (store : List RoofOrder) (geo : Except GFail (ℚ × ℚ))
        (ins : Except GFail SolarPayload) (now : Nat) (o : RoofOrder) (raw : RawGoogle),
      cacheLookup store (addrHash address) = some o →
      o.raw_google_response = some raw →
      (get_tier1_estimate address store geo ins now).response =
        { normalize_solar_data (payloadOfRaw raw) o.address with is_cached := true } ∧
      (get_tier1_estimate address store geo ins now).response.is_cached = true ∧
      (get_tier1_estimate address store geo ins now).store = store ∧
      (get_tier1_estimate address store geo ins now).trace = []) ∧
    (∀ a1 a2 : String, lowerChars a1.data = lowerChars a2.data → addrHash a1 = addrHash a2) ∧
    (∀ (a w1 w2 : String),
      (∀ c ∈ w1.data, c.isWhitespace = true) → (∀ c ∈ w2.data, c.isWhitespace = true) →
      addrHash (w1 ++ a ++ w2) = addrHash a) := by
  refine ⟨?_, ?_, ?_⟩
  · intro address store geo ins now o raw h1 h2
    refine ⟨?_, ?_, ?_, ?_⟩ <;> simp only [get_tier1_estimate, h1, h2]
  · intro a1 a2 h
    rw [addrHash_eq, addrHash_eq, h]
  · intro a w1 w2 h1 h2
    rw [addrHash_eq, addrHash_eq]
    rw [dataAppend, dataAppend]
    unfold lowerChars
    rw [List.map_append, List.map_append]
    rw [trimChars_append_ws]
    · intro c hc
      obtain ⟨d, hd, rfl⟩ := List.mem_map.1 hc
      rw [toLower_ws d (h1 d hd)]
      exact h1 d hd
    · intro c hc
      obtain ⟨d, hd, rfl⟩ := List.mem_map.1 hc
      rw [toLower_ws d (h2 d hd)]
      exact h2 d hd

/-- The one-row store used by the C7 witness: a cached estimate for the
normalized address key of " Main St ". -/
def c7Store : List RoofOrder :=
  [{ address := "B", normalized_address_hash := some (addrHash "main st"),
     raw_google_response := some (.solar {}), created_at := 0, updated_at := 0 }]

/-- Witness for `C7_amended`: a concrete cache hit (note the request
address differs from the stored one by case and padding), and the two
normalization facts at concrete strings. -/
theorem C7_amended_witness :
    (get_tier1_estimate " Main St " c7Store (.error (.valueError "x")) (.ok {}) 0).response.is_cached
      = true ∧
    (get_tier1_estimate " Main St " c7Store (.error (.valueError "x")) (.ok {}) 0).store =
      c7Store ∧
    (get_tier1_estimate " Main St " c7Store (.error (.valueError "x")) (.ok {}) 0).trace = [] ∧
    addrHash "MAIN st" = addrHash "main ST" ∧
    addrHash ("  " ++ "x" ++ " ") = addrHash "x" := by
  have h := C7_amended.1 " Main St " c7Store (.error (.valueError "x")) (.ok {}) 0
    ({ address := "B", normalized_address_hash := some (addrHash "main st"),
       raw_google_response := some (.solar {}), created_at := 0, updated_at := 0 })
    (.solar {}) (by rfl) (by rfl)
  refine ⟨h.2.1, h.2.2.1, h.2.2.2, ?_, ?_⟩
  · exact C7_amended.2.1 "MAIN st" "main ST" (by decide)
  · exact C7_amended.2.2 "x" "  " " " (by decide) (by decide)

/-! ### C9 — pitch-string computation -/

/-- `pyRound` of an integer is that integer. -/
theorem pyRound_intCast (n : ℤ) : pyRound (n : ℝ) = n := by
  unfold pyRound
  rw [Int.floor_intCast]
  norm_num

/-- `pyRound` never under-runs the floor. -/
theorem floor_le_pyRound (x : ℝ) : ⌊x⌋ ≤ pyRound x := by
  unfold pyRound
  split_ifs <;> omega

/-- `pyRound` never over-runs the ceiling. -/
theorem pyRound_le_floor_add_one (x : ℝ) : pyRound x ≤ ⌊x⌋ + 1 := by
  unfold pyRound
  split_ifs <;> omega

/-- Round-half-to-even is monotone. -/
theorem pyRound_mono {x y : ℝ} (h : x ≤ y) : pyRound x ≤ pyRound y := by
  have hf : ⌊x⌋ ≤ ⌊y⌋ := Int.floor_le_floor h
  rcases lt_or_eq_of_le hf with hlt | heq
  · calc pyRound x ≤ ⌊x⌋ + 1 := pyRound_le_floor_add_one x
      _ ≤ ⌊y⌋ := by omega
      _ ≤ pyRound y := floor_le_pyRound y
  · unfold pyRound
    rw [← heq]
    have hxy : x - ⌊x⌋ ≤ y - ⌊x⌋ := by linarith
    split_ifs <;> first | omega | linarith

/-- The two sequential caps of `degrees_to_pitch_string` equal a clamp
to `[0, 24]`. -/
theorem pitchRise_eq_clamp (d : ℝ) :
    pitchRise d = max 0 (min 24 (pyRound (Real.tan (radians d) * 12))) := by
  unfold pitchRise
  dsimp only
  split_ifs <;> omega

/-- C9: non-positive degrees render `"Flat"`; positive degrees render
`"{rise}/12"` where the rise is `round(tan(radians(degrees)) * 12)`
clamped to `[0, 24]`; and the clamped rise is monotone in the degrees on
`(0°, 90°)`. -/
theorem C9_pitch_string :
    (∀ d : ℝ, d ≤ 0 → degrees_to_pitch_string d = "Flat") ∧
    (∀ d : ℝ, 0 < d → degrees_to_pitch_string d = toString (pitchRise d) ++ "/12") ∧
    (∀ d : ℝ, pitchRise d = max 0 (min 24 (pyRound (Real.tan (radians d) * 12)))) ∧
    (∀ d1 d2 : ℝ, 0 < d1 → d1 ≤ d2 → d2 < 90 → pitchRise d1 ≤ pitchRise d2) := by
  refine ⟨?_, ?_, pitchRise_eq_clamp, ?_⟩
  · intro d h
    unfold degrees_to_pitch_string
    rw [if_pos h]
  · intro d h
    unfold degrees_to_pitch_string
    rw [if_neg (not_le.2 h)]
  · intro d1 d2 h1 h12 h2
    have hpi := Real.pi_pos
    have hm1 : radians d1 ∈ Set.Ioo (-(Real.pi / 2)) (Real.pi / 2) := by
      constructor
      · have : (0 : ℝ) < radians d1 := by
          unfold radians
          positivity
        linarith
      · unfold radians
        nlinarith
    have hm2 : radians d2 ∈ Set.Ioo (-(Real.pi / 2)) (Real.pi / 2) := by
      constructor
      · have : (0 : ℝ) < radians d2 := by
          unfold radians
          have : (0 : ℝ) < d2 := lt_of_lt_of_le h1 h12
          positivity
        linarith
      · unfold radians
        nlinarith
    have hrle : radians d1 ≤ radians d2 := by
      unfold radians
      have := mul_le_mul_of_nonneg_right h12 hpi.le
      linarith
    have htan : Real.tan (radians d1) ≤ Real.tan (radians d2) :=
      Real.strictMonoOn_tan.monotoneOn hm1 hm2 hrle
    have h12' : Real.tan (radians d1) * 12 ≤ Real.tan (radians d2) * 12 := by linarith
    have hpr := pyRound_mono h12'
    rw [pitchRise_eq_clamp, pitchRise_eq_clamp]
    omega

/-- Witness for `C9_pitch_string` at 45 degrees (and -1 for the flat
case): `tan(π/4) = 1`, so the rise is 12 and the string is `"12/12"`. -/
theorem C9_witness :
    degrees_to_pitch_string (-1) = "Flat" ∧
    degrees_to_pitch_string 45 = toString (pitchRise 45) ++ "/12" ∧
    pitchRise 45 ≤ pitchRise 45 ∧
    degrees_to_pitch_string 45 = "12/12" := by
  have h45 : Real.tan (radians 45) * 12 = ((12 : ℤ) : ℝ) := by
    have hr : radians 45 = Real.pi / 4 := by
      unfold radians
      ring
    rw [hr, Real.tan_pi_div_four]
    norm_num
  have hrise : pitchRise 45 = 12 := by
    rw [pitchRise_eq_clamp, h45, pyRound_intCast]
    rfl
  refine ⟨C9_pitch_string.1 (-1) (by norm_num),
    C9_pitch_string.2.1 45 (by norm_num),
    C9_pitch_string.2.2.2 45 45 (by norm_num) le_rfl (by norm_num), ?_⟩
  rw [C9_pitch_string.2.1 45 (by norm_num), hrise]
  rfl

/-! ### C8 — predominant pitch selection -/

/-- Value stored in the `pitch_areas` dict for a key (0 when absent). -/
def lookupArea (m : List (String × ℚ)) (k : String) : ℚ :=
  ((m.find? (fun p => p.1 == k)).map Prod.snd).getD 0

/-- The cumulative area of a pitch bucket over a segment list (the
quantity the spec says the selection maximises). -/
noncomputable def bucketArea (segs : List SolarSegment) (k : String) : ℚ :=
  (segs.map (fun s => if degrees_to_pitch_string s.pitchDegrees = k then s.areaMeters2 else 0)).sum

/-- The value update of `addArea` commutes with `find?` by key (keys
are preserved by the update). -/
theorem find?_map_addArea (b : String) (a : ℚ) (k : String) (m : List (String × ℚ)) :
    (m.map (fun p => if p.1 == b then (p.1, p.2 + a) else p)).find? (fun p => p.1 == k) =
      (m.find? (fun p => p.1 == k)).map (fun p => if p.1 == b then (p.1, p.2 + a) else p) := by
  induction m with
  | nil => rfl
  | cons x t ih =>
    have hfst : ((if x.1 == b then (x.1, x.2 + a) else x).1 == k) = (x.1 == k) := by
      split_ifs <;> rfl
    by_cases hx : (x.1 == k) = true
    · simp only [List.map_cons, List.find?_cons, hfst, hx]
      rfl
    · have hxf : (x.1 == k) = false := by simpa using hx
      simp only [List.map_cons, List.find?_cons, hfst, hxf]
      exact ih

/-- `any` false means `find?` fails. -/
theorem find?_eq_none_of_any_false (m : List (String × ℚ)) (p : String × ℚ → Bool)
    (h : m.any p = false) : m.find? p = none := by
  rw [List.find?_eq_none]
  intro x hx hpx
  have : m.any p = true := List.any_eq_true.2 ⟨x, hx, hpx⟩
  rw [h] at this
  cases this

/-- Effect of one dict step on a lookup. -/
theorem lookupArea_addArea (m : List (String × ℚ)) (b : String) (a : ℚ) (k : String) :
    lookupArea (addArea m b a) k = lookupArea m k + (if b = k then a else 0) := by
  unfold addArea
  by_cases hany : m.any (fun p => p.1 == b)
  · rw [if_pos hany]
    unfold lookupArea
    rw [find?_map_addArea]
    cases hf : m.find? (fun p => p.1 == k) with
    | none =>
      have hbk : b ≠ k := by
        intro hbk
        subst hbk
        obtain ⟨x, hx, hpx⟩ := List.any_eq_true.1 hany
        exact absurd hpx (by simpa using (List.find?_eq_none.1 hf x hx))
      simp [hf, hbk]
    | some q =>
      have hpk := List.find?_some hf
      have hpk' : q.1 = k := by simpa using hpk
      by_cases hbk : b = k
      · subst hbk
        have hpb : (q.1 == b) = true := by simp [hpk']
        simp [hf, hpb, hpk']
      · have hkb : ¬q.1 = b := by
          rw [hpk']
          exact fun h => hbk h.symm
        simp [hf, hkb, hbk]
  · have hanyf : m.any (fun p => p.1 == b) = false := Bool.eq_false_iff.mpr hany
    rw [if_neg hany]
    by_cases hk : b = k
    · subst hk
      have hfind : m.find? (fun p => p.1 == b) = none :=
        find?_eq_none_of_any_false m _ hanyf
      unfold lookupArea
      simp [List.find?_append, hfind, List.find?]
    · unfold lookupArea
      have hbk : (b == k) = false := by simpa using hk
      simp [List.find?_append, List.find?, hbk, hk]

/-- The dict built by the loop holds exactly the cumulative area of each
bucket. -/
theorem lookupArea_foldl (segs : List SolarSegment) :
    ∀ (m : List (String × ℚ)) (k : String),
      lookupArea
          (segs.foldl (fun m segment =>
            addArea m (degrees_to_pitch_string segment.pitchDegrees) segment.areaMeters2) m) k =
        lookupArea m k + bucketArea segs k := by
  induction segs with
  | nil =>
    intro m k
    simp [bucketArea]
  | cons s t ih =>
    intro m k
    rw [List.foldl_cons, ih, lookupArea_addArea]
    unfold bucketArea
    rw [List.map_cons, List.sum_cons]
    ring

/-- `buildAreas` realises the cumulative bucket areas. -/
theorem lookupArea_buildAreas (segs : List SolarSegment) (k : String) :
    lookupArea (buildAreas segs) k = bucketArea segs k := by
  unfold buildAreas
  rw [lookupArea_foldl]
  simp [lookupArea]

/-- Keys of the dict after one step. -/
theorem keys_addArea (m : List (String × ℚ)) (b : String) (a : ℚ) (k : String) :
    k ∈ (addArea m b a).map Prod.fst ↔ k ∈ m.map Prod.fst ∨ k = b := by
  unfold addArea
  by_cases hany : m.any (fun p => p.1 == b)
  · rw [if_pos hany]
    rw [List.map_map]
    have hcomp : (Prod.fst ∘ fun p : String × ℚ => if p.1 == b then (p.1, p.2 + a) else p) =
        Prod.fst := by
      funext p
      simp only [Function.comp_apply]
      split_ifs <;> rfl
    rw [hcomp]
    constructor
    · exact Or.inl
    · rintro (h | rfl)
      · exact h
      · obtain ⟨x, hx, hpx⟩ := List.any_eq_true.1 hany
        have : x.1 = k := by simpa using hpx
        exact this ▸ List.mem_map_of_mem Prod.fst hx
  · rw [if_neg hany]
    rw [List.map_append]
    simp [or_comm]

/-- Membership in the dict keys is membership among the segment
buckets. -/
theorem keys_buildAreas (segs : List SolarSegment) :
    ∀ (m : List (String × ℚ)) (k : String),
      (k ∈ (segs.foldl (fun m segment =>
          addArea m (degrees_to_pitch_string segment.pitchDegrees) segment.areaMeters2) m).map
            Prod.fst) ↔
        k ∈ m.map Prod.fst ∨ ∃ s ∈ segs, degrees_to_pitch_string s.pitchDegrees = k := by
  induction segs with
  | nil =>
    intro m k
    simp
  | cons s t ih =>
    intro m k
    rw [List.foldl_cons, ih, keys_addArea]
    constructor
    · rintro ((h | rfl) | ⟨s', hs', rfl⟩)
      · exact Or.inl h
      · exact Or.inr ⟨s, List.mem_cons_self s t, rfl⟩
      · exact Or.inr ⟨s', List.mem_cons_of_mem s hs', rfl⟩
    · rintro (h | ⟨s', hs', rfl⟩)
      · exact Or.inl (Or.inl h)
      · rcases List.mem_cons.1 hs' with rfl | hs'
        · exact Or.inl (Or.inr rfl)
        · exact Or.inr ⟨s', hs', rfl⟩

/-- The dict keys stay distinct. -/
theorem nodup_addArea (m : List (String × ℚ)) (b : String) (a : ℚ)
    (h : (m.map Prod.fst).Nodup) : ((addArea m b a).map Prod.fst).Nodup := by
  unfold addArea
  by_cases hany : m.any (fun p => p.1 == b)
  · rw [if_pos hany]
    rw [List.map_map]
    have hcomp : (Prod.fst ∘ fun p : String × ℚ => if p.1 == b then (p.1, p.2 + a) else p) =
        Prod.fst := by
      funext p
      simp only [Function.comp_apply]
      split_ifs <;> rfl
    rw [hcomp]
    exact h
  · rw [if_neg hany]
    rw [List.map_append]
    refine List.Nodup.append h (by simp) ?_
    intro x hx hx'
    simp only [List.map_cons, List.map_nil, List.mem_singleton] at hx'
    subst hx'
    obtain ⟨p, hp, rfl⟩ := List.mem_map.1 hx
    have : m.any (fun q => q.1 == p.1) = true := List.any_eq_true.2 ⟨p, hp, by simp⟩
    exact hany this

/-- The built dict has distinct keys. -/
theorem nodup_buildAreas (segs : List SolarSegment) :
    ((buildAreas segs).map Prod.fst).Nodup := by
  unfold buildAreas
  suffices h : ∀ (m : List (String × ℚ)), (m.map Prod.fst).Nodup →
      ((segs.foldl (fun m segment =>
        addArea m (degrees_to_pitch_string segment.pitchDegrees) segment.areaMeters2) m).map
          Prod.fst).Nodup by
    exact h [] (by simp)
  induction segs with
  | nil => intro m hm; exact hm
  | cons s t ih =>
    intro m hm
    rw [List.foldl_cons]
    exact ih _ (nodup_addArea m _ _ hm)

/-- Under distinct keys, a pair of the dict realises its own lookup. -/
theorem lookupArea_of_mem (m : List (String × ℚ)) (hnd : (m.map Prod.fst).Nodup)
    (p : String × ℚ) (hp : p ∈ m) : lookupArea m p.1 = p.2 := by
  induction m with
  | nil => cases hp
  | cons x t ih =>
    rcases List.mem_cons.1 hp with rfl | hp'
    · unfold lookupArea
      simp [List.find?_cons]
    · have hx : x.1 ≠ p.1 := by
        intro he
        rw [List.map_cons] at hnd
        have := (List.nodup_cons.1 hnd).1
        exact this (he ▸ List.mem_map_of_mem Prod.fst hp')
      have hxf : (x.1 == p.1) = false := by simpa using hx
      unfold lookupArea
      simp only [List.find?_cons, hxf]
      exact ih ((List.nodup_cons.1 (List.map_cons Prod.fst x t ▸ hnd)).2) hp'

/-- `maxKeyGo` returns a key whose tracked value dominates the seed and
every listed value. -/
theorem maxKeyGo_spec (t : List (String × ℚ)) :
    ∀ (k : String) (v : ℚ), ∃ w : ℚ, v ≤ w ∧ (∀ p ∈ t, p.2 ≤ w) ∧
      ((maxKeyGo k v t = k ∧ w = v) ∨ (∃ p ∈ t, maxKeyGo k v t = p.1 ∧ w = p.2)) := by
  induction t with
  | nil =>
    intro k v
    exact ⟨v, le_rfl, by simp, Or.inl ⟨rfl, rfl⟩⟩
  | cons x t ih =>
    intro k v
    rcases x with ⟨k2, v2⟩
    by_cases hlt : v < v2
    · obtain ⟨w, hvw, hall, hcases⟩ := ih k2 v2
      refine ⟨w, le_of_lt (lt_of_lt_of_le hlt hvw), ?_, ?_⟩
      · intro p hp
        rcases List.mem_cons.1 hp with rfl | hp'
        · exact hvw
        · exact hall p hp'
      · have hgo : maxKeyGo k v ((k2, v2) :: t) = maxKeyGo k2 v2 t := by
          rw [show maxKeyGo k v ((k2, v2) :: t) =
            if v < v2 then maxKeyGo k2 v2 t else maxKeyGo k v t from rfl, if_pos hlt]
        rcases hcases with ⟨he, hw⟩ | ⟨p, hp, he, hw⟩
        · exact Or.inr ⟨(k2, v2), List.mem_cons_self _ _, by rw [hgo, he], hw⟩
        · exact Or.inr ⟨p, List.mem_cons_of_mem _ hp, by rw [hgo, he], hw⟩
    · obtain ⟨w, hvw, hall, hcases⟩ := ih k v
      refine ⟨w, hvw, ?_, ?_⟩
      · intro p hp
        rcases List.mem_cons.1 hp with rfl | hp'
        · exact le_trans (not_lt.1 hlt) hvw
        · exact hall p hp'
      · have hgo : maxKeyGo k v ((k2, v2) :: t) = maxKeyGo k v t := by
          rw [show maxKeyGo k v ((k2, v2) :: t) =
            if v < v2 then maxKeyGo k2 v2 t else maxKeyGo k v t from rfl, if_neg hlt]
        rcases hcases with ⟨he, hw⟩ | ⟨p, hp, he, hw⟩
        · exact Or.inl ⟨by rw [hgo, he], hw⟩
        · exact Or.inr ⟨p, List.mem_cons_of_mem _ hp, by rw [hgo, he], hw⟩

/-- `maxKey` of a nonempty dict is the key of a value-maximal entry. -/
theorem maxKey_spec (m : List (String × ℚ)) (hne : m ≠ []) :
    ∃ p ∈ m, maxKey m = p.1 ∧ ∀ q ∈ m, q.2 ≤ p.2 := by
  cases m with
  | nil => exact absurd rfl hne
  | cons x t =>
    rcases x with ⟨k, v⟩
    obtain ⟨w, hvw, hall, hcases⟩ := maxKeyGo_spec t k v
    rcases hcases with ⟨he, hw⟩ | ⟨p, hp, he, hw⟩
    · refine ⟨(k, v), List.mem_cons_self _ _, he, ?_⟩
      intro q hq
      rcases List.mem_cons.1 hq with rfl | hq'
      · exact le_rfl
      · exact le_trans (hall q hq') (hw ▸ le_rfl)
    · refine ⟨p, List.mem_cons_of_mem _ hp, he, ?_⟩
      intro q hq
      rcases List.mem_cons.1 hq with rfl | hq'
      · exact hw ▸ hvw
      · exact hw ▸ hall q hq'

/-- On a nonempty segment list `find_predominant_pitch` is `maxKey` of
the built dict, and the dict is nonempty. -/
theorem find_predominant_eq (segs : List SolarSegment) (hne : segs ≠ []) :
    find_predominant_pitch segs = maxKey (buildAreas segs) ∧ buildAreas segs ≠ [] := by
  have hkey : ∃ k, k ∈ (buildAreas segs).map Prod.fst := by
    cases segs with
    | nil => exact absurd rfl hne
    | cons s t =>
      refine ⟨degrees_to_pitch_string s.pitchDegrees, ?_⟩
      unfold buildAreas
      rw [keys_buildAreas (s :: t) [] _]
      exact Or.inr ⟨s, List.mem_cons_self s t, rfl⟩
  have hm : buildAreas segs ≠ [] := by
    obtain ⟨k, hk⟩ := hkey
    intro h
    rw [h] at hk
    cases hk
  have hse : segs.isEmpty = false := by
    cases segs with
    | nil => exact absurd rfl hne
    | cons s t => rfl
  have hme : (buildAreas segs).isEmpty = false := by
    cases h : buildAreas segs with
    | nil => exact absurd h hm
    | cons x t => rfl
  constructor
  · simp only [find_predominant_pitch, hse, hme, Bool.false_eq_true, if_false]
  · exact hm

/-- C8 (amended): `find_predominant_pitch` returns a pitch bucket of the
segments attaining the largest cumulative bucket area; cumulative bucket
areas are invariant under permutations of the segment list (so any
permutation returns a bucket of the same maximal cumulative area, though
on ties the returned bucket itself can depend on the order, as the
counterexample shows); and the example segments
[(6/12, 500), (4/12, 800)] yield `"4/12"`. -/
theorem C8_amended :
    (∀ segs : List SolarSegment, segs ≠ [] →
      (∃ s ∈ segs,
        degrees_to_pitch_string s.pitchDegrees = find_predominant_pitch segs) ∧
      (∀ s ∈ segs, bucketArea segs (degrees_to_pitch_string s.pitchDegrees) ≤
        bucketArea segs (find_predominant_pitch segs))) ∧
    (∀ (segs1 segs2 : List SolarSegment) (k : String), segs1.Perm segs2 →
      bucketArea segs1 k = bucketArea segs2 k) ∧
    (∀ (d6 d4 : ℝ) (az1 az2 : ℚ),
      degrees_to_pitch_string d6 = "6/12" → degrees_to_pitch_string d4 = "4/12" →
      find_predominant_pitch
        [{ pitchDegrees := d6, azimuthDegrees := az1, areaMeters2 := 500 },
         { pitchDegrees := d4, azimuthDegrees := az2, areaMeters2 := 800 }] = "4/12") := by
  refine ⟨?_, ?_, ?_⟩
  · intro segs hne
    obtain ⟨hfe, hm⟩ := find_predominant_eq segs hne
    obtain ⟨p, hp, hres, hmax⟩ := maxKey_spec (buildAreas segs) hm
    have hnd := nodup_buildAreas segs
    have hkeys : ∀ k, k ∈ (buildAreas segs).map Prod.fst ↔
        ∃ s ∈ segs, degrees_to_pitch_string s.pitchDegrees = k := by
      intro k
      unfold buildAreas
      rw [keys_buildAreas segs [] k]
      simp
    constructor
    · rw [hfe, hres]
      exact (hkeys p.1).1 (List.mem_map_of_mem Prod.fst hp)
    · intro s hs
      rw [hfe, hres]
      obtain ⟨q, hq, hqk⟩ := List.mem_map.1 ((hkeys _).2 ⟨s, hs, rfl⟩)
      have h1 : bucketArea segs (degrees_to_pitch_string s.pitchDegrees) = q.2 := by
        rw [← hqk, ← lookupArea_buildAreas, lookupArea_of_mem _ hnd q hq]
      have h2 : bucketArea segs p.1 = p.2 := by
        rw [← lookupArea_buildAreas, lookupArea_of_mem _ hnd p hp]
      rw [h1, h2]
      exact hmax q hq
  · intro segs1 segs2 k h
    unfold bucketArea
    exact List.Perm.sum_eq (h.map _)
  · intro d6 d4 az1 az2 h6 h4
    have hsne : ¬("6/12" : String) = "4/12" := by decide
    unfold find_predominant_pitch buildAreas
    simp only [List.foldl_cons, List.foldl_nil, h6, h4]
    norm_num [addArea, maxKey, maxKeyGo, hsne]

/-- Rendering of a positive angle whose scaled tangent is an integer in
range. -/
theorem pitch_string_of_tan_eq (d : ℝ) (n : ℤ) (hd : 0 < d)
    (h : Real.tan (radians d) * 12 = (n : ℝ)) (h0 : 0 ≤ n) (h24 : n ≤ 24) :
    degrees_to_pitch_string d = toString n ++ "/12" := by
  unfold degrees_to_pitch_string
  rw [if_neg (not_le.2 hd), pitchRise_eq_clamp, h, pyRound_intCast]
  congr 2
  omega

/-- A 45-degree pitch renders as `"12/12"`. -/
theorem pitch_string_45 : degrees_to_pitch_string 45 = "12/12" := by
  have h : Real.tan (radians 45) * 12 = ((12 : ℤ) : ℝ) := by
    have hr : radians 45 = Real.pi / 4 := by
      unfold radians
      ring
    rw [hr, Real.tan_pi_div_four]
    norm_num
  have := pitch_string_of_tan_eq 45 12 (by norm_num) h (by norm_num) (by norm_num)
  simpa using this

/-- The degree value (in the provider's unit) whose bucket is
`"{n}/12"`: the arctangent of `n/12`, converted to degrees. -/
theorem arctan_deg_pitch (x : ℝ) (n : ℤ) (hx : 0 < x) (hn : x * 12 = (n : ℝ))
    (h0 : 0 ≤ n) (h24 : n ≤ 24) :
    degrees_to_pitch_string (Real.arctan x * 180 / Real.pi) = toString n ++ "/12" := by
  have hpi := Real.pi_pos
  have ha : 0 < Real.arctan x := by
    have h := Real.arctan_strictMono hx
    rwa [Real.arctan_zero] at h
  have hd : 0 < Real.arctan x * 180 / Real.pi := by positivity
  have hrad : radians (Real.arctan x * 180 / Real.pi) = Real.arctan x := by
    unfold radians
    field_simp
  refine pitch_string_of_tan_eq _ n hd ?_ h0 h24
  rw [hrad, Real.tan_arctan, hn]

/-- A zero-pitch (flat) segment of area 100. -/
def c8SegFlat : SolarSegment := { pitchDegrees := 0, azimuthDegrees := 0, areaMeters2 := 100 }

/-- A 45-degree segment of area 100. -/
def c8Seg45 : SolarSegment := { pitchDegrees := 45, azimuthDegrees := 0, areaMeters2 := 100 }

/-- C8 counterexample: with two pitch buckets tying on cumulative area,
`find_predominant_pitch` is sensitive to segment order (Python `max`
keeps the first maximal dict key in insertion order), so the result is
not invariant under every permutation of the segment list. -/
theorem C8_counterexample :
    List.Perm [c8Seg45, c8SegFlat] [c8SegFlat, c8Seg45] ∧
    find_predominant_pitch [c8SegFlat, c8Seg45] = "Flat" ∧
    find_predominant_pitch [c8Seg45, c8SegFlat] = "12/12" ∧
    find_predominant_pitch [c8SegFlat, c8Seg45] ≠
      find_predominant_pitch [c8Seg45, c8SegFlat] := by
  have hFlat : degrees_to_pitch_string (0 : ℝ) = "Flat" := by
    unfold degrees_to_pitch_string
    rw [if_pos le_rfl]
  have hne : ¬("Flat" : String) = "12/12" := by decide
  have hne' : ¬("12/12" : String) = "Flat" := by decide
  have h1 : find_predominant_pitch [c8SegFlat, c8Seg45] = "Flat" := by
    unfold find_predominant_pitch buildAreas c8SegFlat c8Seg45
    simp only [List.foldl_cons, List.foldl_nil, hFlat, pitch_string_45]
    norm_num [addArea, maxKey, maxKeyGo, hne]
  have h2 : find_predominant_pitch [c8Seg45, c8SegFlat] = "12/12" := by
    unfold find_predominant_pitch buildAreas c8SegFlat c8Seg45
    simp only [List.foldl_cons, List.foldl_nil, hFlat, pitch_string_45]
    norm_num [addArea, maxKey, maxKeyGo, hne']
  refine ⟨List.Perm.swap c8SegFlat c8Seg45 [], h1, h2, ?_⟩
  rw [h1, h2]
  exact hne

/-- Witness for `C8_amended`: the argmax facts on a one-segment list,
permutation invariance of the cumulative areas on the tie instance, and
the concrete example with degree values `arctan(1/2)` and `arctan(1/3)`
(whose buckets are `6/12` and `4/12`). -/
theorem C8_amended_witness :
    ((∃ s ∈ [c8Seg45],
        degrees_to_pitch_string s.pitchDegrees = find_predominant_pitch [c8Seg45]) ∧
      (∀ s ∈ [c8Seg45], bucketArea [c8Seg45] (degrees_to_pitch_string s.pitchDegrees) ≤
        bucketArea [c8Seg45] (find_predominant_pitch [c8Seg45]))) ∧
    bucketArea [c8Seg45, c8SegFlat] "Flat" = bucketArea [c8SegFlat, c8Seg45] "Flat" ∧
    find_predominant_pitch
      [{ pitchDegrees := Real.arctan (1 / 2) * 180 / Real.pi, azimuthDegrees := 0,
         areaMeters2 := 500 },
       { pitchDegrees := Real.arctan (1 / 3) * 180 / Real.pi, azimuthDegrees := 0,
         areaMeters2 := 800 }] = "4/12" := by
  have h6 : degrees_to_pitch_string (Real.arctan (1 / 2) * 180 / Real.pi) = "6/12" := by
    have h := arctan_deg_pitch (1 / 2) 6 (by norm_num) (by norm_num) (by norm_num) (by norm_num)
    simpa using h
  have h4 : degrees_to_pitch_string (Real.arctan (1 / 3) * 180 / Real.pi) = "4/12" := by
    have h := arctan_deg_pitch (1 / 3) 4 (by norm_num) (by norm_num) (by norm_num) (by norm_num)
    simpa using h
  refine ⟨C8_amended.1 [c8Seg45] (by simp),
    C8_amended.2.1 [c8Seg45, c8SegFlat] [c8SegFlat, c8Seg45] "Flat"
      (List.Perm.swap c8SegFlat c8Seg45 []),
    C8_amended.2.2 (Real.arctan (1 / 2) * 180 / Real.pi)
      (Real.arctan (1 / 3) * 180 / Real.pi) 0 0 h6 h4⟩
